import Mathlib

/-!
Verification development for the multi-pass window-deformation PIV engine
(`openpiv/windef.py`, CPU variant, and `openpiv/windef_gpu.py`, tiled GPU
variant).  The two orchestrator files are embedded shallowly: 2-D numpy
arrays become total functions on indices together with an explicit shape,
machine floats become exact rationals, and the external collaborators
(correlation engine, validation, outlier repair, smoothing) become function
parameters, exactly as the specification declares them out of scope.
Exceptions raised by the Python code become `Except.error` values carrying
the exception message.
-/

/-- A 2-D array: a shape together with a total indexing function.  Rows and
columns index from 0; entries outside the shape are irrelevant junk, and
every statement about array contents is guarded by the shape. -/
structure Arr (α : Type) where
  rows : ℕ
  cols : ℕ
  data : ℕ → ℕ → α

/-- Array of constant entries, as produced by `np.zeros_like` and friends. -/
def constArr (rows cols : ℕ) (x : α) : Arr α := ⟨rows, cols, fun _ _ => x⟩

/-- All-false boolean array, `np.zeros_like(u, dtype=bool)`. -/
def falseArr (rows cols : ℕ) : Arr Bool := constArr rows cols false

/-- Pointwise sum of two co-shaped arrays, `u + u_pre`. -/
def addArr (a b : Arr ℚ) : Arr ℚ := ⟨a.rows, a.cols, fun r c => a.data r c + b.data r c⟩

/-- Pointwise negation, the `-v_pre` argument of the deformers. -/
def negArr (a : Arr ℚ) : Arr ℚ := ⟨a.rows, a.cols, fun r c => -(a.data r c)⟩

/-- Stamp the field shape returned by `get_field_shape` onto the flat
per-window output of the external correlation engine (`u.reshape(shapes)`).
The engine is a black box that already delivers one value per window in the
grid order, so reshaping is re-indexing by the grid shape. -/
def reshapeTo (rows cols : ℕ) (a : Arr α) : Arr α := ⟨rows, cols, a.data⟩

/-- `np.all(flags)` over the declared shape (true on an empty array). -/
def allTrueB (a : Arr Bool) : Bool :=
  decide (∀ r, r < a.rows → ∀ c, c < a.cols → a.data r c = true)

/-- `u.filled(0.)` on a masked array: masked cells become 0. -/
def fillZero (a : Arr ℚ) (mask : Arr Bool) : Arr ℚ :=
  ⟨a.rows, a.cols, fun r c => if mask.data r c then 0 else a.data r c⟩

/-- `-u[::-1]`: reverse the row order and negate every entry. -/
def flipNeg (a : Arr ℚ) : Arr ℚ :=
  ⟨a.rows, a.cols, fun r c => -(a.data (a.rows - 1 - r) c)⟩

/-! ## `scipy.ndimage.map_coordinates`, orders 0 and 1

The engine invokes `map_coordinates` with `mode='nearest'` (replicate the
edge sample outside the frame) for image warping, and the GPU field
densification uses `mode='constant', cval=0`.  The model covers the
resampling orders 0 (round to nearest source pixel) and 1 (bilinear);
these are the orders of the `interpolation_order` configuration the
sub-pixel claims exercise.  Higher spline orders replace the reconstruction
kernel but none of the data flow around it. -/

/-- Clamp an integer index into `[0, n-1]` (edge replication). -/
def clampIdx (n : ℕ) (i : ℤ) : ℕ :=
  if i < 0 then 0 else min i.toNat (n - 1)

/-- Array lookup with edge replication outside the shape (`mode='nearest'`). -/
def getClamped (a : Arr ℚ) (i j : ℤ) : ℚ :=
  a.data (clampIdx a.rows i) (clampIdx a.cols j)

/-- Array lookup returning 0 outside the shape (`mode='constant', cval=0`). -/
def getConst0 (a : Arr ℚ) (i j : ℤ) : ℚ :=
  if 0 ≤ i ∧ i < (a.rows : ℤ) ∧ 0 ≤ j ∧ j < (a.cols : ℤ) then
    a.data i.toNat j.toNat
  else 0

/-- Round a rational coordinate to the nearest integer sample position, the
order-0 spline of `map_coordinates`. -/
def roundQ (q : ℚ) : ℤ := ⌊q + 1/2⌋

/-- Clamp a rational coordinate into the coordinate range `[0, n-1]` of an
axis with `n` samples. -/
def clampQ (n : ℕ) (q : ℚ) : ℚ := max 0 (min q ((n : ℚ) - 1))

/-- Bilinear reconstruction (order-1 spline) at one axis position: mix the
two bracketing samples of a row lookup function. -/
def mix (lo hi w : ℚ) : ℚ := (1 - w) * lo + w * hi

/-- Order-1 (bilinear) sample of an edge-replicated array at a rational
coordinate pair. -/
def sample1 (a : Arr ℚ) (yc xc : ℚ) : ℚ :=
  mix (mix (getClamped a ⌊yc⌋ ⌊xc⌋) (getClamped a ⌊yc⌋ (⌊xc⌋+1)) (xc - ⌊xc⌋))
      (mix (getClamped a (⌊yc⌋+1) ⌊xc⌋) (getClamped a (⌊yc⌋+1) (⌊xc⌋+1)) (xc - ⌊xc⌋))
      (yc - ⌊yc⌋)

/-- Order-0 sample of an edge-replicated array. -/
def sample0 (a : Arr ℚ) (yc xc : ℚ) : ℚ :=
  getClamped a (roundQ yc) (roundQ xc)

/-- `map_coordinates(a, [yc, xc], order, mode='nearest')` at one output
position, for resampling order 0 or 1. -/
def sampleAt (order : ℕ) (a : Arr ℚ) (yc xc : ℚ) : ℚ :=
  if order = 0 then sample0 a yc xc else sample1 a yc xc

/-- Order-1 sample of a zero-extended array (`mode='constant', cval=0`),
used by the GPU tile densification. -/
def sample1c (a : Arr ℚ) (yc xc : ℚ) : ℚ :=
  mix (mix (getConst0 a ⌊yc⌋ ⌊xc⌋) (getConst0 a ⌊yc⌋ (⌊xc⌋+1)) (xc - ⌊xc⌋))
      (mix (getConst0 a (⌊yc⌋+1) ⌊xc⌋) (getConst0 a (⌊yc⌋+1) (⌊xc⌋+1)) (xc - ⌊xc⌋))
      (yc - ⌊yc⌋)

/-- Order-0 sample of a zero-extended array. -/
def sample0c (a : Arr ℚ) (yc xc : ℚ) : ℚ :=
  getConst0 a (roundQ yc) (roundQ xc)

/-- `map_coordinates(a, [yc, xc], order, mode='constant', cval=0)` at one
output position, for order 0 or 1. -/
def sampleAtC0 (order : ℕ) (a : Arr ℚ) (yc xc : ℚ) : ℚ :=
  if order = 0 then sample0c a yc xc else sample1c a yc xc

lemma clampIdx_of_nonpos (n : ℕ) {i : ℤ} (h : i ≤ 0) : clampIdx n i = 0 := by
  unfold clampIdx
  rcases lt_or_eq_of_le h with h' | h'
  · simp [h']
  · subst h'
    simp

lemma clampIdx_of_ge (n : ℕ) {i : ℤ} (hn : 1 ≤ n) (h : (n : ℤ) - 1 ≤ i) :
    clampIdx n i = n - 1 := by
  unfold clampIdx
  have h0 : ¬ i < 0 := by omega
  simp only [h0, if_false]
  omega

lemma clampIdx_of_mem (n : ℕ) {i : ℤ} (h0 : 0 ≤ i) (h1 : i ≤ (n : ℤ) - 1) :
    clampIdx n i = i.toNat := by
  unfold clampIdx
  have hlt : ¬ i < 0 := by omega
  simp only [hlt, if_false]
  omega

lemma getClamped_row_nonpos (a : Arr ℚ) {i : ℤ} (j : ℤ) (h : i ≤ 0) :
    getClamped a i j = getClamped a 0 j := by
  unfold getClamped
  rw [clampIdx_of_nonpos a.rows h, clampIdx_of_nonpos a.rows (le_refl 0)]

lemma getClamped_row_ge (a : Arr ℚ) {i : ℤ} (j : ℤ) (hn : 1 ≤ a.rows)
    (h : (a.rows : ℤ) - 1 ≤ i) :
    getClamped a i j = getClamped a ((a.rows : ℤ) - 1) j := by
  unfold getClamped
  rw [clampIdx_of_ge a.rows hn h, clampIdx_of_ge a.rows hn (le_refl _)]

lemma getClamped_col_nonpos (a : Arr ℚ) (i : ℤ) {j : ℤ} (h : j ≤ 0) :
    getClamped a i j = getClamped a i 0 := by
  unfold getClamped
  rw [clampIdx_of_nonpos a.cols h, clampIdx_of_nonpos a.cols (le_refl 0)]

lemma getClamped_col_ge (a : Arr ℚ) (i : ℤ) {j : ℤ} (hn : 1 ≤ a.cols)
    (h : (a.cols : ℤ) - 1 ≤ j) :
    getClamped a i j = getClamped a i ((a.cols : ℤ) - 1) := by
  unfold getClamped
  rw [clampIdx_of_ge a.cols hn h, clampIdx_of_ge a.cols hn (le_refl _)]

lemma mix_self (x w : ℚ) : mix x x w = x := by
  unfold mix
  ring

lemma mix_left (x y : ℚ) : mix x y 0 = x := by
  unfold mix
  ring

lemma floor_neg_of_neg {q : ℚ} (h : q < 0) : ⌊q⌋ ≤ -1 := by
  have := Int.floor_lt.mpr (by exact_mod_cast h : q < ((0 : ℤ) : ℚ))
  omega

lemma sample1_y_nonpos (a : Arr ℚ) {yq : ℚ} (xq : ℚ) (hy : yq ≤ 0) :
    sample1 a yq xq = sample1 a 0 xq := by
  rcases lt_or_eq_of_le hy with h | h
  · have hi : ⌊yq⌋ ≤ -1 := floor_neg_of_neg h
    unfold sample1
    rw [getClamped_row_nonpos a ⌊xq⌋ (by omega : ⌊yq⌋ ≤ 0),
        getClamped_row_nonpos a (⌊xq⌋+1) (by omega : ⌊yq⌋ ≤ 0),
        getClamped_row_nonpos a ⌊xq⌋ (by omega : ⌊yq⌋+1 ≤ 0),
        getClamped_row_nonpos a (⌊xq⌋+1) (by omega : ⌊yq⌋+1 ≤ 0),
        mix_self]
    norm_num [mix_left]
  · rw [h]

lemma cast_sub_one (n : ℕ) : ((n : ℚ) - 1) = (((n : ℤ) - 1 : ℤ) : ℚ) := by
  push_cast
  ring

lemma floor_cast_sub_one (n : ℕ) : ⌊(n : ℚ) - 1⌋ = (n : ℤ) - 1 := by
  rw [cast_sub_one]
  exact Int.floor_intCast _

lemma floor_ge_of_ge_cast {q : ℚ} {z : ℤ} (h : (z : ℚ) ≤ q) : z ≤ ⌊q⌋ :=
  Int.le_floor.mpr h

lemma sample1_y_ge (a : Arr ℚ) {yq : ℚ} (xq : ℚ) (hn : 1 ≤ a.rows)
    (hy : (a.rows : ℚ) - 1 ≤ yq) :
    sample1 a yq xq = sample1 a ((a.rows : ℚ) - 1) xq := by
  have hi : (a.rows : ℤ) - 1 ≤ ⌊yq⌋ := by
    apply Int.le_floor.mpr
    push_cast
    linarith
  have hw : (a.rows : ℚ) - 1 - ((((a.rows : ℤ) - 1 : ℤ)) : ℚ) = 0 := by
    push_cast
    ring
  unfold sample1
  rw [getClamped_row_ge a ⌊xq⌋ hn hi,
      getClamped_row_ge a (⌊xq⌋+1) hn hi,
      getClamped_row_ge a ⌊xq⌋ hn (by omega : (a.rows : ℤ) - 1 ≤ ⌊yq⌋+1),
      getClamped_row_ge a (⌊xq⌋+1) hn (by omega : (a.rows : ℤ) - 1 ≤ ⌊yq⌋+1),
      mix_self, floor_cast_sub_one, hw, mix_left]

lemma sample1_x_nonpos (a : Arr ℚ) (yq : ℚ) {xq : ℚ} (hx : xq ≤ 0) :
    sample1 a yq xq = sample1 a yq 0 := by
  rcases lt_or_eq_of_le hx with h | h
  · have hj : ⌊xq⌋ ≤ -1 := floor_neg_of_neg h
    unfold sample1
    rw [getClamped_col_nonpos a ⌊yq⌋ (by omega : ⌊xq⌋ ≤ 0),
        getClamped_col_nonpos a ⌊yq⌋ (by omega : ⌊xq⌋+1 ≤ 0),
        getClamped_col_nonpos a (⌊yq⌋+1) (by omega : ⌊xq⌋ ≤ 0),
        getClamped_col_nonpos a (⌊yq⌋+1) (by omega : ⌊xq⌋+1 ≤ 0),
        mix_self, mix_self]
    norm_num [mix_left]
  · rw [h]

lemma sample1_x_ge (a : Arr ℚ) (yq : ℚ) {xq : ℚ} (hn : 1 ≤ a.cols)
    (hx : (a.cols : ℚ) - 1 ≤ xq) :
    sample1 a yq xq = sample1 a yq ((a.cols : ℚ) - 1) := by
  have hj : (a.cols : ℤ) - 1 ≤ ⌊xq⌋ := by
    apply Int.le_floor.mpr
    push_cast
    linarith
  have hw : (a.cols : ℚ) - 1 - ((((a.cols : ℤ) - 1 : ℤ)) : ℚ) = 0 := by
    push_cast
    ring
  unfold sample1
  rw [getClamped_col_ge a ⌊yq⌋ hn hj,
      getClamped_col_ge a ⌊yq⌋ hn (by omega : (a.cols : ℤ) - 1 ≤ ⌊xq⌋+1),
      getClamped_col_ge a (⌊yq⌋+1) hn hj,
      getClamped_col_ge a (⌊yq⌋+1) hn (by omega : (a.cols : ℤ) - 1 ≤ ⌊xq⌋+1),
      mix_self, mix_self, floor_cast_sub_one, hw, mix_left, mix_left]

lemma clampQ_of_nonpos {n : ℕ} {q : ℚ} (hn : 1 ≤ n) (h : q ≤ 0) : clampQ n q = 0 := by
  unfold clampQ
  have h1 : (0 : ℚ) ≤ (n : ℚ) - 1 := by
    have : (1 : ℚ) ≤ (n : ℚ) := by exact_mod_cast hn
    linarith
  rw [min_eq_left (le_trans h h1), max_eq_left h]

lemma clampQ_of_mem {n : ℕ} {q : ℚ} (h0 : 0 ≤ q) (h1 : q ≤ (n : ℚ) - 1) :
    clampQ n q = q := by
  unfold clampQ
  rw [min_eq_left h1, max_eq_right h0]

lemma clampQ_of_ge {n : ℕ} {q : ℚ} (hn : 1 ≤ n) (h : (n : ℚ) - 1 ≤ q) :
    clampQ n q = (n : ℚ) - 1 := by
  unfold clampQ
  have h1 : (0 : ℚ) ≤ (n : ℚ) - 1 := by
    have : (1 : ℚ) ≤ (n : ℚ) := by exact_mod_cast hn
    linarith
  rw [min_eq_right h, max_eq_right h1]

/-- Bilinear sampling sees only the clamped coordinate: the `mode='nearest'`
edge replication makes every out-of-frame source coordinate equivalent to
the nearest in-frame one. -/
lemma sample1_clamp (a : Arr ℚ) (yq xq : ℚ) (hr : 1 ≤ a.rows) (hc : 1 ≤ a.cols) :
    sample1 a yq xq = sample1 a (clampQ a.rows yq) (clampQ a.cols xq) := by
  have hstep : sample1 a yq xq = sample1 a (clampQ a.rows yq) xq := by
    rcases le_total yq 0 with h | h
    · rw [sample1_y_nonpos a xq h, clampQ_of_nonpos hr h]
    · rcases le_total yq ((a.rows : ℚ) - 1) with h1 | h1
      · rw [clampQ_of_mem h h1]
      · rw [sample1_y_ge a xq hr h1, clampQ_of_ge hr h1]
  rw [hstep]
  rcases le_total xq 0 with h | h
  · rw [sample1_x_nonpos a _ h, clampQ_of_nonpos hc h]
  · rcases le_total xq ((a.cols : ℚ) - 1) with h1 | h1
    · rw [clampQ_of_mem h h1]
    · rw [sample1_x_ge a _ hc h1, clampQ_of_ge hc h1]

lemma roundQ_mono {p q : ℚ} (h : p ≤ q) : roundQ p ≤ roundQ q := by
  unfold roundQ
  exact Int.floor_le_floor (by linarith)

lemma roundQ_cast (z : ℤ) : roundQ ((z : ℚ)) = z := by
  unfold roundQ
  have h : ⌊(1/2 : ℚ)⌋ = 0 := by
    rw [Int.floor_eq_zero_iff]
    constructor
    · norm_num
    · norm_num
  rw [Int.floor_int_add, h, add_zero]

lemma clampIdx_roundQ_clamp (n : ℕ) (q : ℚ) (hn : 1 ≤ n) :
    clampIdx n (roundQ (clampQ n q)) = clampIdx n (roundQ q) := by
  rcases le_total q 0 with h | h
  · rw [clampQ_of_nonpos hn h]
    rw [show roundQ (0 : ℚ) = 0 from by rw [show ((0:ℚ)) = ((0 : ℤ) : ℚ) by norm_num, roundQ_cast]]
    have hq : roundQ q ≤ 0 := by
      have := roundQ_mono h
      rw [show roundQ (0 : ℚ) = 0 from by rw [show ((0:ℚ)) = ((0 : ℤ) : ℚ) by norm_num, roundQ_cast]] at this
      exact this
    rw [clampIdx_of_nonpos n (le_refl 0), clampIdx_of_nonpos n hq]
  · rcases le_total q ((n : ℚ) - 1) with h1 | h1
    · rw [clampQ_of_mem h h1]
    · rw [clampQ_of_ge hn h1]
      have hcast : roundQ ((n : ℚ) - 1) = (n : ℤ) - 1 := by
        rw [cast_sub_one, roundQ_cast]
      have hq : (n : ℤ) - 1 ≤ roundQ q := by
        have := roundQ_mono h1
        rw [hcast] at this
        exact this
      rw [hcast, clampIdx_of_ge n hn (le_refl _), clampIdx_of_ge n hn hq]

/-- Order-0 sampling sees only the clamped coordinate. -/
lemma sample0_clamp (a : Arr ℚ) (yq xq : ℚ) (hr : 1 ≤ a.rows) (hc : 1 ≤ a.cols) :
    sample0 a yq xq = sample0 a (clampQ a.rows yq) (clampQ a.cols xq) := by
  unfold sample0 getClamped
  rw [clampIdx_roundQ_clamp a.rows yq hr, clampIdx_roundQ_clamp a.cols xq hc]

/-- At both supported resampling orders, a source coordinate that falls
outside the frame is clamped to the nearest edge. -/
lemma sampleAt_clamp (order : ℕ) (a : Arr ℚ) (yq xq : ℚ)
    (hr : 1 ≤ a.rows) (hc : 1 ≤ a.cols) :
    sampleAt order a yq xq = sampleAt order a (clampQ a.rows yq) (clampQ a.cols xq) := by
  unfold sampleAt
  by_cases h : order = 0
  · simp only [h, if_pos rfl]
    exact sample0_clamp a yq xq hr hc
  · simp only [h, if_false]
    exact sample1_clamp a yq xq hr hc


/-! ## Grid builder

`get_field_shape` and `get_rect_coordinates` live in `openpiv.pyprocess`,
code of this repository that is not under `src/`; they are modelled from
the spec (sections 3 and 4.1). -/

/-- Modelled from the spec: `get_field_shape` (missing from `src/`) gives
the grid shape `floor((frame_dim - window_size) / (window_size - overlap))
+ 1` per axis (spec section 3, Grid). -/
def fieldShape (dim ws ov : ℕ) : ℕ := (dim - ws) / (ws - ov) + 1

/-- Modelled from the spec: `get_rect_coordinates` (missing from `src/`)
places window centers starting at `w/2` and stepping by `w - o` (spec
section 4.1).  Centers are integer pixel coordinates for the even window
sizes in use. -/
def gridCenter (ws ov j : ℕ) : ℕ := ws / 2 + j * (ws - ov)

/-- The x-coordinate meshgrid of window centers (constant along rows). -/
def newGridX (fa : Arr ℚ) (ws ov : ℕ) : Arr ℕ :=
  ⟨fieldShape fa.rows ws ov, fieldShape fa.cols ws ov, fun _ c => gridCenter ws ov c⟩

/-- The y-coordinate meshgrid of window centers (constant along columns). -/
def newGridY (fa : Arr ℚ) (ws ov : ℕ) : Arr ℕ :=
  ⟨fieldShape fa.rows ws ov, fieldShape fa.cols ws ov, fun r _ => gridCenter ws ov r⟩

/-! ## `scipy.interpolate.RectBivariateSpline`, spline degree 1

`RectBivariateSpline(y1, x1, vals, kx=k, ky=k)` fits a tensor-product
spline over a rectilinear grid and evaluates it anywhere, extrapolating
polynomially beyond the knot range.  The model is the degree-1 member of
the family: separable piecewise-linear interpolation, extrapolating the
boundary segments linearly.  Higher configured degrees change the per-axis
reconstruction kernel only, not the data flow around it. -/

/-- Index of the knot segment used for coordinate `q`: the number of
interior knots at or below `q`, capped to the last segment so that
positions beyond the knot range extrapolate from the boundary segment. -/
def segIdx (m : ℕ) (t : ℕ → ℚ) (q : ℚ) : ℕ :=
  min (((List.range (m - 1)).filter (fun i => decide (t (i+1) ≤ q))).length) (m - 2)

/-- Degree-1 spline in one axis over `m` knots `t` with values `f`,
evaluated at `q`. -/
def lin1 (m : ℕ) (t f : ℕ → ℚ) (q : ℚ) : ℚ :=
  f (segIdx m t q) +
    (q - t (segIdx m t q)) * (f (segIdx m t q + 1) - f (segIdx m t q)) /
      (t (segIdx m t q + 1) - t (segIdx m t q))

/-- Tensor-product evaluation of the degree-1 `RectBivariateSpline` fit of
`vals` over row knots `ty` and column knots `tx`, at `(yq, xq)`. -/
def rbsEval (vals : Arr ℚ) (ty tx : ℕ → ℚ) (yq xq : ℚ) : ℚ :=
  lin1 vals.rows ty (fun i => lin1 vals.cols tx (fun j => vals.data i j) xq) yq

/-- Truncation toward zero of a rational, the C float-to-integer cast. -/
def truncQ (q : ℚ) : ℤ := if 0 ≤ q then ⌊q⌋ else -⌊-q⌋

/-- Storing a float into a `uint8` array (`frame_def[...] = frame_def_tile`
with `frame_def = cp.empty((H, W), dtype=cp.uint8)`): truncate toward zero
and wrap modulo 256, the numpy/cupy unsafe cast on non-negative values. -/
def castUint8 (q : ℚ) : ℤ := truncQ q % 256

/-! ## External collaborators and settings -/

/-- The external collaborators of the engine, out of scope per the spec:
the correlation engine behind `extended_search_area_piv` (arguments: frame
a, frame b, window size, overlap, search area size; returns per-window u,
v and signal-to-noise in grid order), `validation.typical_validation`,
`filters.replace_outliers`, and the first component of the `smoothn.smoothn`
return tuple. -/
structure Collab where
  corr : Arr ℚ → Arr ℚ → ℕ → ℕ → ℕ → Arr ℚ × Arr ℚ × Arr ℚ
  validate : Arr ℚ → Arr ℚ → Arr ℚ → Arr Bool
  replace : Arr ℚ → Arr ℚ → Arr Bool → Arr ℚ × Arr ℚ
  smooth : Arr ℚ → Arr ℚ

/-- The slice of `PIVSettings` that the two orchestrator files read.  The
window size and overlap schedules are indexing functions, as Python lists
are to the code. -/
structure PIVSettings where
  windowsizes : ℕ → ℕ
  overlap : ℕ → ℕ
  num_iterations : ℕ
  interpolation_order : ℕ
  smoothn : Bool
  validation_first_pass : Bool
  replace_vectors : Bool
  static_mask : Option (Arr Bool)

/-- Result bundle of `first_pass`. -/
structure FirstPassResult where
  x : Arr ℕ
  y : Arr ℕ
  u : Arr ℚ
  v : Arr ℚ
  s2n : Arr ℚ

/-- `first_pass` (defined identically in `windef.py` and `windef_gpu.py`,
each over its correlation backend): correlate at the first window size and
overlap with `search_area_size` equal to the window size, reshape the flat
outputs to the field shape, and build the coordinate grid. -/
def first_pass (Co : Collab) (frame_a frame_b : Arr ℚ) (s : PIVSettings) :
    FirstPassResult :=
  let ws := s.windowsizes 0
  let ov := s.overlap 0
  let fr := fieldShape frame_a.rows ws ov
  let fc := fieldShape frame_a.cols ws ov
  let t := Co.corr frame_a frame_b ws ov ws
  ⟨newGridX frame_a ws ov, newGridY frame_a ws ov,
   reshapeTo fr fc t.1, reshapeTo fr fc t.2.1, reshapeTo fr fc t.2.2⟩

/-! ## CPU image deformer (`windef.py`) -/

/-- `create_deformation_field`: fit a spline of degree
`interpolation_order2` (modelled at degree 1) to the coarse field over the
knots `y[:, 0]` and `x[0, :]`, and evaluate it densely at every pixel of
the frame, giving the per-pixel fields `(ut, vt)`. -/
def create_deformation_field (frame : Arr ℚ) (x y : Arr ℕ) (u v : Arr ℚ)
    (interpolation_order2 : ℕ) : Arr ℚ × Arr ℚ :=
  (⟨frame.rows, frame.cols, fun r c =>
      rbsEval u (fun i => ((y.data i 0 : ℕ) : ℚ)) (fun j => ((x.data 0 j : ℕ) : ℚ))
        (r : ℚ) (c : ℚ)⟩,
   ⟨frame.rows, frame.cols, fun r c =>
      rbsEval v (fun i => ((y.data i 0 : ℕ) : ℚ)) (fun j => ((x.data 0 j : ℕ) : ℚ))
        (r : ℚ) (c : ℚ)⟩)

/-- `deform_windows` (CPU): densify the coarse displacement field to
per-pixel `(ut, vt)` and warp the frame by
`map_coordinates(frame, (y - vt, x + ut), order, mode='nearest')` over the
full-pixel meshgrid. -/
def deform_windows (frame : Arr ℚ) (x y : Arr ℕ) (u v : Arr ℚ)
    (interpolation_order interpolation_order2 : ℕ) : Arr ℚ :=
  let uv := create_deformation_field frame x y u v interpolation_order2
  ⟨frame.rows, frame.cols, fun r c =>
    sampleAt interpolation_order frame ((r : ℚ) - uv.2.data r c)
      ((c : ℚ) + uv.1.data r c)⟩

/-! ## CPU multipass iteration (`windef.py`, `multipass_img_deform`) -/

/-- The arguments of one `multipass_img_deform` invocation.  `mask_old` is
the mask carried by the masked arrays `u_old, v_old` (no mask after the
first pass); `np.ma.filled(u_old, 0.)` reads it. -/
structure PassArgs where
  Co : Collab
  frame_a : Arr ℚ
  frame_b : Arr ℚ
  i : ℕ
  x_old : Arr ℕ
  y_old : Arr ℕ
  u_old : Arr ℚ
  v_old : Arr ℚ
  mask_old : Arr Bool
  s : PIVSettings

/-- `window_size = settings.windowsizes[current_iteration]`. -/
def passWS (a : PassArgs) : ℕ := a.s.windowsizes a.i

/-- `overlap = settings.overlap[current_iteration]`. -/
def passOV (a : PassArgs) : ℕ := a.s.overlap a.i

/-- Row count of the new grid. -/
def passRows (a : PassArgs) : ℕ := fieldShape a.frame_a.rows (passWS a) (passOV a)

/-- Column count of the new grid. -/
def passCols (a : PassArgs) : ℕ := fieldShape a.frame_a.cols (passWS a) (passOV a)

/-- `u_pre`: the previous field, filled with 0 at its masked cells, fit
with `RectBivariateSpline` over the old grid knots `y_old[:, 0]`,
`x_old[0, :]` and evaluated at the new grid coordinates. -/
def cpuUpre (a : PassArgs) : Arr ℚ :=
  ⟨passRows a, passCols a, fun r c =>
    rbsEval (fillZero a.u_old a.mask_old)
      (fun i => ((a.y_old.data i 0 : ℕ) : ℚ)) (fun j => ((a.x_old.data 0 j : ℕ) : ℚ))
      ((gridCenter (passWS a) (passOV a) r : ℕ) : ℚ)
      ((gridCenter (passWS a) (passOV a) c : ℕ) : ℚ)⟩

/-- `v_pre`, as `u_pre`. -/
def cpuVpre (a : PassArgs) : Arr ℚ :=
  ⟨passRows a, passCols a, fun r c =>
    rbsEval (fillZero a.v_old a.mask_old)
      (fun i => ((a.y_old.data i 0 : ℕ) : ℚ)) (fun j => ((a.x_old.data 0 j : ℕ) : ℚ))
      ((gridCenter (passWS a) (passOV a) r : ℕ) : ℚ)
      ((gridCenter (passWS a) (passOV a) c : ℕ) : ℚ)⟩

/-- The deformed frame B of the pass:
`deform_windows(frame_b, x, y, u_pre, -v_pre, order, order)`. -/
def cpuFrameDef (a : PassArgs) : Arr ℚ :=
  deform_windows a.frame_b (newGridX a.frame_a (passWS a) (passOV a))
    (newGridY a.frame_a (passWS a) (passOV a)) (cpuUpre a) (negArr (cpuVpre a))
    a.s.interpolation_order a.s.interpolation_order

/-- The residual correlation of the pass: `extended_search_area_piv` on
(frame A, deformed frame B) at the new window size and overlap, with no
search-area enlargement (the engine defaults the search area to the window
size), reshaped to the field shape. -/
def cpuCorrRes (a : PassArgs) : Arr ℚ × Arr ℚ × Arr ℚ :=
  let t := a.Co.corr a.frame_a (cpuFrameDef a) (passWS a) (passOV a) (passWS a)
  (reshapeTo (passRows a) (passCols a) t.1,
   reshapeTo (passRows a) (passCols a) t.2.1,
   reshapeTo (passRows a) (passCols a) t.2.2)

/-- The accumulated field `u = u_residual + u_pre` of the pass. -/
def cpuAccumU (a : PassArgs) : Arr ℚ := addArr (cpuCorrRes a).1 (cpuUpre a)

/-- The accumulated field `v = v_residual + v_pre` of the pass. -/
def cpuAccumV (a : PassArgs) : Arr ℚ := addArr (cpuCorrRes a).2.1 (cpuVpre a)

/-- The grid mask of the pass: the static mask sampled at the new window
centers when one is configured, else all false. -/
def cpuGridMask (a : PassArgs) : Arr Bool :=
  match a.s.static_mask with
  | some m =>
    ⟨passRows a, passCols a, fun r c =>
      m.data (gridCenter (passWS a) (passOV a) r) (gridCenter (passWS a) (passOV a) c)⟩
  | none => falseArr (passRows a) (passCols a)

/-- The validation flags of the pass: `typical_validation` on the
accumulated field and the signal-to-noise array. -/
def cpuFlags (a : PassArgs) : Arr Bool :=
  a.Co.validate (cpuAccumU a) (cpuAccumV a) (cpuCorrRes a).2.2

/-- Result bundle of `multipass_img_deform`. -/
structure PassResult where
  x : Arr ℕ
  y : Arr ℕ
  u : Arr ℚ
  v : Arr ℚ
  grid_mask : Arr Bool
  flags : Arr Bool

/-- `multipass_img_deform` (CPU, `windef.py` 526-735): build the new grid,
resample the previous field onto it, deform frame B, correlate the
residual, accumulate, reapply the grid mask, validate (raising
`ValueError("Something happened in the validation")` when every cell is
flagged), and replace outliers unless this is the last iteration. -/
def multipass_img_deform (a : PassArgs) : Except String PassResult :=
  if allTrueB (cpuFlags a) then
    Except.error "Something happened in the validation"
  else if a.i + 1 ≠ a.s.num_iterations then
    let uv := a.Co.replace (cpuAccumU a) (cpuAccumV a) (cpuFlags a)
    Except.ok ⟨newGridX a.frame_a (passWS a) (passOV a),
               newGridY a.frame_a (passWS a) (passOV a),
               uv.1, uv.2, cpuGridMask a, cpuFlags a⟩
  else
    Except.ok ⟨newGridX a.frame_a (passWS a) (passOV a),
               newGridY a.frame_a (passWS a) (passOV a),
               cpuAccumU a, cpuAccumV a, cpuGridMask a, cpuFlags a⟩

/-! ## CPU pass orchestrator (`windef.py`, `multipass`) -/

/-- The per-pass state the orchestrator threads through the loop: the
coordinate grids, the displacement field with the mask its masked arrays
carry, and the validation flags of the latest pass. -/
structure StageState where
  x : Arr ℕ
  y : Arr ℕ
  u : Arr ℚ
  v : Arr ℚ
  uMask : Arr Bool
  flags : Arr Bool

/-- The tuple handed to `tools.save`. -/
structure PIVOutput where
  x : Arr ℕ
  y : Arr ℕ
  u : Arr ℚ
  v : Arr ℚ
  flags : Arr Bool
  grid_mask : Arr Bool

/-- `scn.map_coordinates(image_mask, [y, x]).astype(bool)`: sample the
image mask at the window-center coordinate arrays.  At the integer window
centers the interpolating spline reproduces the stored values exactly, so
the sampled grid mask is the mask at the centers. -/
def sampleMaskGrid (m : Arr Bool) (y x : Arr ℕ) : Arr Bool :=
  ⟨y.rows, y.cols, fun r c => m.data (y.data r c) (x.data r c)⟩

/-- The first-stage `u` after the optional smoothing of lines 197-203 of
`windef.py`, which is applied whenever `settings.smoothn` is set, with no
guard on the iteration count. -/
def fsU (Co : Collab) (frame_a frame_b : Arr ℚ) (s : PIVSettings) : Arr ℚ :=
  if s.smoothn then Co.smooth (first_pass Co frame_a frame_b s).u
  else (first_pass Co frame_a frame_b s).u

/-- The first-stage `v` after the optional smoothing. -/
def fsV (Co : Collab) (frame_a frame_b : Arr ℚ) (s : PIVSettings) : Arr ℚ :=
  if s.smoothn then Co.smooth (first_pass Co frame_a frame_b s).v
  else (first_pass Co frame_a frame_b s).v

/-- The first-stage validation flags (lines 233-236): `typical_validation`
when first-pass validation is enabled, else `np.zeros_like(u, dtype=bool)`. -/
def fsFlags (Co : Collab) (frame_a frame_b : Arr ℚ) (s : PIVSettings) : Arr Bool :=
  if s.validation_first_pass then
    Co.validate (fsU Co frame_a frame_b s) (fsV Co frame_a frame_b s)
      (first_pass Co frame_a frame_b s).s2n
  else falseArr (fsU Co frame_a frame_b s).rows (fsU Co frame_a frame_b s).cols

/-- Lines 187-250 of `windef.py`: first pass, optional smoothing (applied
whenever enabled, with no last-pass guard), first-pass validation, and the
conditional outlier replacement, which also covers the single-pass case
when `replace_vectors` is set.  The first-stage `u, v` are plain arrays,
so the carried mask is empty. -/
def firstStage (Co : Collab) (frame_a frame_b : Arr ℚ) (s : PIVSettings) :
    StageState :=
  let u := fsU Co frame_a frame_b s
  let v := fsV Co frame_a frame_b s
  let flags := fsFlags Co frame_a frame_b s
  let uv := if (s.num_iterations = 1 ∧ s.replace_vectors = true) ∨ 1 < s.num_iterations
            then Co.replace u v flags else (u, v)
  ⟨(first_pass Co frame_a frame_b s).x, (first_pass Co frame_a frame_b s).y,
   uv.1, uv.2, falseArr u.rows u.cols, flags⟩

/-- One iteration of the multipass loop (lines 254-280): run
`multipass_img_deform`, then smooth `(u, v)` if smoothing is enabled and
another iteration follows. -/
def multipassStep (Co : Collab) (frame_a frame_b : Arr ℚ) (s : PIVSettings)
    (i : ℕ) (st : StageState) : Except String StageState :=
  match multipass_img_deform ⟨Co, frame_a, frame_b, i, st.x, st.y, st.u, st.v, st.uMask, s⟩ with
  | Except.error e => Except.error e
  | Except.ok pr =>
    let u := if s.smoothn = true ∧ i + 1 ≠ s.num_iterations then Co.smooth pr.u else pr.u
    let v := if s.smoothn = true ∧ i + 1 ≠ s.num_iterations then Co.smooth pr.v else pr.v
    Except.ok ⟨pr.x, pr.y, u, v, pr.grid_mask, pr.flags⟩

/-- Run the loop body over the iteration indices, propagating the first
raised exception. -/
def runPasses (step : ℕ → StageState → Except String StageState) :
    List ℕ → StageState → Except String StageState
  | [], st => Except.ok st
  | i :: rest, st =>
    match step i st with
    | Except.error e => Except.error e
    | Except.ok st2 => runPasses step rest st2

/-- The state after the first stage and the whole multipass loop
(`for i in range(1, settings.num_iterations)`). -/
def runState (Co : Collab) (frame_a frame_b : Arr ℚ) (s : PIVSettings) :
    Except String StageState :=
  runPasses (multipassStep Co frame_a frame_b s) (List.range' 1 (s.num_iterations - 1))
    (firstStage Co frame_a frame_b s)

/-- Lines 288-306 of `windef.py`: zero-fill the masked cells of the field
(`u.filled(0.)`), recompute and reapply the grid mask from the image mask
when one is present (with no image mask the masked arrays carry no mask
and the grid mask variable of the last pass stands), and hand
`(x, y, -u[::-1], -v[::-1], flags, grid_mask)` to `tools.save`. -/
def finalize (image_mask : Option (Arr Bool)) (st : StageState) : PIVOutput :=
  let u := fillZero st.u st.uMask
  let v := fillZero st.v st.uMask
  let gm := match image_mask with
    | some m => sampleMaskGrid m st.y st.x
    | none => st.uMask
  ⟨st.x, st.y, flipNeg u, flipNeg v, st.flags, gm⟩

/-- `multipass` (CPU, `windef.py` 160-309), from the prepared frames and
image mask to the tuple handed to `tools.save`.  When `num_iterations` is
at most 1 the loop body never runs, and the completion print statement at
line 285 reads the loop variable `i` that was never bound, so the run dies
with a `NameError` before reaching the save. -/
def multipass (Co : Collab) (frame_a frame_b : Arr ℚ)
    (image_mask : Option (Arr Bool)) (s : PIVSettings) : Except String PIVOutput :=
  match runState Co frame_a frame_b s with
  | Except.error e => Except.error e
  | Except.ok st =>
    if s.num_iterations ≤ 1 then Except.error "NameError: name i is not defined"
    else Except.ok (finalize image_mask st)

/-! ## GPU tiled image deformer (`windef_gpu.py`, `deform_windows`) -/

/-- `int(np.ceil(a / b))` on non-negative integers. -/
def ceilDiv (a b : ℕ) : ℕ := (a + b - 1) / b

/-- The number of grid steps padded before the first window center along
one axis, `y_add[0]` and `x_add[0]` of the GPU `multipass_img_deform`. -/
def gpuAddLo (ws ov : ℕ) : ℕ := ceilDiv (gridCenter ws ov 0) (ws - ov)

/-- The number of grid steps padded past the last window center,
`y_add[1]` and `x_add[1]`. -/
def gpuAddHi (dim ws ov : ℕ) : ℕ :=
  ceilDiv (dim - gridCenter ws ov (fieldShape dim ws ov - 1) - 1) (ws - ov)

/-- Knot count of the padded grid along one axis. -/
def gpuPadCount (dim ws ov : ℕ) : ℕ :=
  gpuAddLo ws ov + fieldShape dim ws ov + gpuAddHi dim ws ov

/-- Coordinate of padded knot `k` along one axis: the window centers
extended by whole grid steps on both sides (`np.hstack` at lines 552-561
of `windef_gpu.py`); the leading pad can reach negative coordinates. -/
def gpuPadCoord (ws ov k : ℕ) : ℚ :=
  ((gridCenter ws ov 0 : ℕ) : ℚ) + ((k : ℚ) - ((gpuAddLo ws ov : ℕ) : ℚ)) * ((ws : ℚ) - (ov : ℚ))

/-- `deform_windows` (GPU, `windef_gpu.py` 244-342).  The tile loop
partitions rows and columns into blocks of 8192 and computes every output
pixel from its global coordinates alone: the dense field at a pixel is the
coarse field sampled by `map_coordinates` at `((row - y0)/step,
(col - x0)/step)` with `mode='constant', cval=0`, the warped value is the
frame sampled at `(row - vt, col + ut)` with `mode='nearest'`, and the
value is stored into the `cp.uint8` output array.  No pixel depends on its
tile, so the assembled output is this per-pixel map with the store cast. -/
def gpuDeformWindows (frame : Arr ℚ) (x y : Arr ℚ) (u v : Arr ℚ) (ws ov : ℕ)
    (interpolation_order interpolation_order2 : ℕ) : Arr ℤ :=
  ⟨frame.rows, frame.cols, fun r c =>
    let ut := sampleAtC0 interpolation_order2 u
      (((r : ℚ) - y.data 0 0) / ((ws : ℚ) - (ov : ℚ)))
      (((c : ℚ) - x.data 0 0) / ((ws : ℚ) - (ov : ℚ)))
    let vt := sampleAtC0 interpolation_order2 v
      (((r : ℚ) - y.data 0 0) / ((ws : ℚ) - (ov : ℚ)))
      (((c : ℚ) - x.data 0 0) / ((ws : ℚ) - (ov : ℚ)))
    castUint8 (sampleAt interpolation_order frame ((r : ℚ) - vt) ((c : ℚ) + ut))⟩

/-! ## GPU multipass iteration (`windef_gpu.py`, `multipass_img_deform`) -/

/-- The padded x meshgrid of the GPU pass (`np.meshgrid(x_int, y_int)`). -/
def gpuPadMeshX (a : PassArgs) : Arr ℚ :=
  ⟨gpuPadCount a.frame_a.rows (passWS a) (passOV a),
   gpuPadCount a.frame_a.cols (passWS a) (passOV a),
   fun _ l => gpuPadCoord (passWS a) (passOV a) l⟩

/-- The padded y meshgrid of the GPU pass. -/
def gpuPadMeshY (a : PassArgs) : Arr ℚ :=
  ⟨gpuPadCount a.frame_a.rows (passWS a) (passOV a),
   gpuPadCount a.frame_a.cols (passWS a) (passOV a),
   fun k _ => gpuPadCoord (passWS a) (passOV a) k⟩

/-- GPU `u_pre`: the previous field (used raw, not filled) fit with
`RectBivariateSpline` over the old grid knots and evaluated on the padded
grid, so that the subsequent dense lookup covers the whole frame. -/
def gpuUpre (a : PassArgs) : Arr ℚ :=
  ⟨gpuPadCount a.frame_a.rows (passWS a) (passOV a),
   gpuPadCount a.frame_a.cols (passWS a) (passOV a),
   fun k l =>
    rbsEval a.u_old
      (fun i => ((a.y_old.data i 0 : ℕ) : ℚ)) (fun j => ((a.x_old.data 0 j : ℕ) : ℚ))
      (gpuPadCoord (passWS a) (passOV a) k) (gpuPadCoord (passWS a) (passOV a) l)⟩

/-- GPU `v_pre`, as `u_pre`. -/
def gpuVpre (a : PassArgs) : Arr ℚ :=
  ⟨gpuPadCount a.frame_a.rows (passWS a) (passOV a),
   gpuPadCount a.frame_a.cols (passWS a) (passOV a),
   fun k l =>
    rbsEval a.v_old
      (fun i => ((a.y_old.data i 0 : ℕ) : ℚ)) (fun j => ((a.x_old.data 0 j : ℕ) : ℚ))
      (gpuPadCoord (passWS a) (passOV a) k) (gpuPadCoord (passWS a) (passOV a) l)⟩

/-- The GPU deformed frame B (a uint8 array). -/
def gpuFrameDef (a : PassArgs) : Arr ℤ :=
  gpuDeformWindows a.frame_b (gpuPadMeshX a) (gpuPadMeshY a) (gpuUpre a)
    (negArr (gpuVpre a)) (passWS a) (passOV a)
    a.s.interpolation_order a.s.interpolation_order

/-- The GPU deformed frame as the numeric frame the correlation engine
receives. -/
def gpuFrameDefQ (a : PassArgs) : Arr ℚ :=
  ⟨(gpuFrameDef a).rows, (gpuFrameDef a).cols, fun r c => (((gpuFrameDef a).data r c : ℤ) : ℚ)⟩

/-- The GPU residual correlation, reshaped to the field shape. -/
def gpuCorrRes (a : PassArgs) : Arr ℚ × Arr ℚ × Arr ℚ :=
  let t := a.Co.corr a.frame_a (gpuFrameDefQ a) (passWS a) (passOV a) (passWS a)
  (reshapeTo (passRows a) (passCols a) t.1,
   reshapeTo (passRows a) (passCols a) t.2.1,
   reshapeTo (passRows a) (passCols a) t.2.2)

/-- GPU accumulation `u += u_pre[y_add[0]:-y_add[1], x_add[0]:-x_add[1]]`:
the residual plus the padded pre-deformation field with its pad border
cropped away (the pad counts are positive for the window sizes in use). -/
def gpuAccumU (a : PassArgs) : Arr ℚ :=
  ⟨passRows a, passCols a, fun r c =>
    (gpuCorrRes a).1.data r c +
      (gpuUpre a).data (r + gpuAddLo (passWS a) (passOV a)) (c + gpuAddLo (passWS a) (passOV a))⟩

/-- GPU accumulation for `v`. -/
def gpuAccumV (a : PassArgs) : Arr ℚ :=
  ⟨passRows a, passCols a, fun r c =>
    (gpuCorrRes a).2.1.data r c +
      (gpuVpre a).data (r + gpuAddLo (passWS a) (passOV a)) (c + gpuAddLo (passWS a) (passOV a))⟩

/-- The GPU validation flags of the pass. -/
def gpuFlags (a : PassArgs) : Arr Bool :=
  a.Co.validate (gpuAccumU a) (gpuAccumV a) (gpuCorrRes a).2.2

/-- `multipass_img_deform` (GPU, `windef_gpu.py` 435-674): as the CPU
variant, except that the pre-deformation field lives on the padded grid,
the grid mask output is always `np.zeros_like(u)` (the static mask is
never consulted), and after outlier replacement on a non-final pass the
flags are overwritten with `np.zeros(u.shape)`.  The returned `x, y` are
the padded meshgrids with the pad border cropped away, which are exactly
the window-center grids. -/
def gpu_multipass_img_deform (a : PassArgs) : Except String PassResult :=
  if allTrueB (gpuFlags a) then
    Except.error "Something happened in the validation"
  else if a.i + 1 ≠ a.s.num_iterations then
    let uv := a.Co.replace (gpuAccumU a) (gpuAccumV a) (gpuFlags a)
    Except.ok ⟨newGridX a.frame_a (passWS a) (passOV a),
               newGridY a.frame_a (passWS a) (passOV a),
               uv.1, uv.2, falseArr (passRows a) (passCols a),
               falseArr (passRows a) (passCols a)⟩
  else
    Except.ok ⟨newGridX a.frame_a (passWS a) (passOV a),
               newGridY a.frame_a (passWS a) (passOV a),
               gpuAccumU a, gpuAccumV a, falseArr (passRows a) (passCols a),
               gpuFlags a⟩

/-! ## GPU pass orchestrator (`windef_gpu.py`, `multipass`)

Lines 146-188 of `windef_gpu.py` are the same first stage as the CPU file
(first pass, optional smoothing, first-pass validation, conditional
replacement), so the GPU driver reuses `firstStage`. -/

/-- One iteration of the GPU multipass loop (lines 192-216). -/
def gpuMultipassStep (Co : Collab) (frame_a frame_b : Arr ℚ) (s : PIVSettings)
    (i : ℕ) (st : StageState) : Except String StageState :=
  match gpu_multipass_img_deform ⟨Co, frame_a, frame_b, i, st.x, st.y, st.u, st.v, st.uMask, s⟩ with
  | Except.error e => Except.error e
  | Except.ok pr =>
    let u := if s.smoothn = true ∧ i + 1 ≠ s.num_iterations then Co.smooth pr.u else pr.u
    let v := if s.smoothn = true ∧ i + 1 ≠ s.num_iterations then Co.smooth pr.v else pr.v
    Except.ok ⟨pr.x, pr.y, u, v, pr.grid_mask, pr.flags⟩

/-- The GPU state after the first stage and the loop. -/
def gpuRunState (Co : Collab) (frame_a frame_b : Arr ℚ) (s : PIVSettings) :
    Except String StageState :=
  runPasses (gpuMultipassStep Co frame_a frame_b s) (List.range' 1 (s.num_iterations - 1))
    (firstStage Co frame_a frame_b s)

/-- Lines 234-239 of `windef_gpu.py`: set `grid_mask = np.zeros_like(u)`
and hand `(x, y, -u[::-1], -v[::-1], flags, grid_mask)` to `tools.save`;
no masked-array fill happens (the fill is commented out). -/
def gpuFinalize (st : StageState) : PIVOutput :=
  ⟨st.x, st.y, flipNeg st.u, flipNeg st.v, st.flags, falseArr st.u.rows st.u.cols⟩

/-- `multipass` (GPU, `windef_gpu.py` 115-242): the saved grid mask is all
false whatever the settings hold, and the saved field is
`-u[::-1], -v[::-1]` as on the CPU.  The completion print does not read
the loop variable, so single-pass runs complete. -/
def gpuMultipass (Co : Collab) (frame_a frame_b : Arr ℚ) (s : PIVSettings) :
    Except String PIVOutput :=
  match gpuRunState Co frame_a frame_b s with
  | Except.error e => Except.error e
  | Except.ok st => Except.ok (gpuFinalize st)

/-! ## `prepare_images` (`windef.py` 27-131 and `windef_gpu.py` 26-84)

The embedding covers the image-conforming logic and the region-of-interest
crop.  File decoding, plotting, intensity inversion and the masking
preludes that follow in the CPU file are pointwise and shape-preserving,
and out of scope for the conformance claim. -/

/-- Crop the width of frame B centrally when it exceeds that of frame A. -/
def cropWidth (fa fb : Arr ℚ) : Arr ℚ :=
  if fa.cols < fb.cols then
    ⟨fb.rows, fa.cols, fun r c => fb.data r (c + (fb.cols - fa.cols) / 2)⟩
  else fb

/-- Crop the height of frame B centrally when it exceeds that of frame A. -/
def cropHeight (fa fb : Arr ℚ) : Arr ℚ :=
  if fa.rows < fb.rows then
    ⟨fa.rows, fb.cols, fun r c => fb.data (r + (fb.rows - fa.rows) / 2) c⟩
  else fb

/-- Zero-pad frame B up to frame A in any dimension where it is smaller
(`np.pad` with `a = (ha - hb) // 2` rows before, the remainder after, and
likewise for columns). -/
def padBoth (fa fb : Arr ℚ) : Arr ℚ :=
  if fb.rows < fa.rows ∨ fb.cols < fa.cols then
    ⟨fb.rows + (fa.rows - fb.rows) / 2 + (fa.rows - fb.rows - (fa.rows - fb.rows) / 2),
     fb.cols + (fa.cols - fb.cols) / 2 + (fa.cols - fb.cols - (fa.cols - fb.cols) / 2),
     fun r c =>
      if (fa.rows - fb.rows) / 2 ≤ r ∧ r < (fa.rows - fb.rows) / 2 + fb.rows ∧
         (fa.cols - fb.cols) / 2 ≤ c ∧ c < (fa.cols - fb.cols) / 2 + fb.cols then
        fb.data (r - (fa.rows - fb.rows) / 2) (c - (fa.cols - fb.cols) / 2)
      else 0⟩
  else fb

/-- The conformed frame B: crop width, crop height, then pad. -/
def conformB (fa fb : Arr ℚ) : Arr ℚ := padBoth fa (cropHeight fa (cropWidth fa fb))

/-- A Python slice `a[r0:r1, c0:c1]` on non-negative bounds. -/
def sliceArr (a : Arr ℚ) (r0 r1 c0 c1 : ℕ) : Arr ℚ :=
  ⟨min r1 a.rows - r0, min c1 a.cols - c0, fun r c => a.data (r0 + r) (c0 + c)⟩

/-- `prepare_images`: conform frame B to frame A, raise
`ValueError("Images are different sizes.")` if the shapes still differ,
then crop both to the region of interest when one is configured. -/
def prepare_images (fa fb : Arr ℚ) (roi : Option (ℕ × ℕ × ℕ × ℕ)) :
    Except String (Arr ℚ × Arr ℚ) :=
  let fb2 := conformB fa fb
  if fb2.rows ≠ fa.rows ∨ fb2.cols ≠ fa.cols then
    Except.error "Images are different sizes."
  else
    match roi with
    | none => Except.ok (fa, fb2)
    | some (r0, r1, c0, c1) =>
      Except.ok (sliceArr fa r0 r1 c0 c1, sliceArr fb2 r0 r1 c0 c1)

/-- The per-axis index mapping the claim describes: central crop of a
larger dimension, central zero-pad placement of a smaller one (`none`
marks a padded position). -/
def dimMap (na nb : ℕ) (i : ℕ) : Option ℕ :=
  if na < nb then some (i + (nb - na) / 2)
  else if (na - nb) / 2 ≤ i ∧ i < (na - nb) / 2 + nb then some (i - (na - nb) / 2)
  else none

/-! ## Concrete fixtures shared by witnesses and counterexamples -/

/-- An 8 by 8 frame of constant intensity 1.  With window size 4 and
overlap 2 the grid has shape 3 by 3 and centers 2, 4, 6. -/
def frameW : Arr ℚ := constArr 8 8 1

/-- A correlation collaborator returning the constant per-window estimate
`(5, 5)` with signal-to-noise 1. -/
def corrConst5 : Arr ℚ → Arr ℚ → ℕ → ℕ → ℕ → Arr ℚ × Arr ℚ × Arr ℚ :=
  fun _ _ _ _ _ => (constArr 9 9 5, constArr 9 9 5, constArr 9 9 1)

/-- A validation collaborator that accepts every vector. -/
def validateNone : Arr ℚ → Arr ℚ → Arr ℚ → Arr Bool :=
  fun u _ _ => falseArr u.rows u.cols

/-- An outlier-repair collaborator that changes nothing. -/
def replaceId : Arr ℚ → Arr ℚ → Arr Bool → Arr ℚ × Arr ℚ := fun u v _ => (u, v)

/-- A smoothing collaborator that changes nothing. -/
def smoothId : Arr ℚ → Arr ℚ := fun u => u

/-- The benign collaborator bundle. -/
def CoW : Collab := ⟨corrConst5, validateNone, replaceId, smoothId⟩

/-- Baseline settings: window size 4 and overlap 2 on every pass, two
iterations, interpolation order 1, everything optional off. -/
def sW : PIVSettings :=
  ⟨fun _ => 4, fun _ => 2, 2, 1, false, false, false, none⟩

/-- A placeholder output for reading a known-successful run. -/
def dummyOutput : PIVOutput :=
  ⟨constArr 0 0 0, constArr 0 0 0, constArr 0 0 0, constArr 0 0 0,
   falseArr 0 0, falseArr 0 0⟩

/-- The degree-1 spline fit of an everywhere-zero field evaluates to zero
at every position, including extrapolated ones. -/
lemma rbsEval_zero (vals : Arr ℚ) (h : ∀ i j, vals.data i j = 0)
    (ty tx : ℕ → ℚ) (yq xq : ℚ) : rbsEval vals ty tx yq xq = 0 := by
  unfold rbsEval lin1
  simp [h]

/-- The zero-extended bilinear sample of an everywhere-zero field is zero. -/
lemma sample1c_zero (a : Arr ℚ) (h : ∀ i j, a.data i j = 0) (yq xq : ℚ) :
    sample1c a yq xq = 0 := by
  have hg : ∀ i j : ℤ, getConst0 a i j = 0 := by
    intro i j
    unfold getConst0
    split_ifs with hin
    · exact h _ _
    · rfl
  unfold sample1c
  rw [hg, hg, hg, hg, mix_self, mix_self]

/-! ## Claim C2 -/

/-- Claim C2: for every frame and dense per-pixel displacement field the
deformer returns a warped frame of identical shape in which output pixel
`(row, col)` is the input frame sampled at
`(row - v(row, col), col + u(row, col))` at the configured resampling
order (modelled for orders 0 and 1), and any source coordinate falling
outside the frame is clamped to the nearest edge. -/
theorem C2_main (frame : Arr ℚ) (x y : Arr ℕ) (u v : Arr ℚ) (ord ord2 : ℕ)
    (hord : ord ≤ 1) (hr : 1 ≤ frame.rows) (hc : 1 ≤ frame.cols) :
    (deform_windows frame x y u v ord ord2).rows = frame.rows ∧
    (deform_windows frame x y u v ord ord2).cols = frame.cols ∧
    (∀ r c : ℕ, (deform_windows frame x y u v ord ord2).data r c =
      sampleAt ord frame
        ((r : ℚ) - (create_deformation_field frame x y u v ord2).2.data r c)
        ((c : ℚ) + (create_deformation_field frame x y u v ord2).1.data r c)) ∧
    (∀ yq xq : ℚ, sampleAt ord frame yq xq =
      sampleAt ord frame (clampQ frame.rows yq) (clampQ frame.cols xq)) := by
  refine ⟨rfl, rfl, fun r c => rfl, fun yq xq => sampleAt_clamp ord frame yq xq hr hc⟩

/-- Witness for C2 at a concrete frame, grid and field. -/
theorem C2_witness :
    ((0 : ℕ) ≤ 1 ∧ 1 ≤ frameW.rows ∧ 1 ≤ frameW.cols) ∧
    ((deform_windows frameW (newGridX frameW 4 2) (newGridY frameW 4 2)
        (constArr 3 3 0) (constArr 3 3 0) 0 1).rows = frameW.rows ∧
     (deform_windows frameW (newGridX frameW 4 2) (newGridY frameW 4 2)
        (constArr 3 3 0) (constArr 3 3 0) 0 1).cols = frameW.cols ∧
     (∀ r c : ℕ, (deform_windows frameW (newGridX frameW 4 2) (newGridY frameW 4 2)
        (constArr 3 3 0) (constArr 3 3 0) 0 1).data r c =
       sampleAt 0 frameW
         ((r : ℚ) - (create_deformation_field frameW (newGridX frameW 4 2)
            (newGridY frameW 4 2) (constArr 3 3 0) (constArr 3 3 0) 1).2.data r c)
         ((c : ℚ) + (create_deformation_field frameW (newGridX frameW 4 2)
            (newGridY frameW 4 2) (constArr 3 3 0) (constArr 3 3 0) 1).1.data r c)) ∧
     (∀ yq xq : ℚ, sampleAt 0 frameW yq xq =
       sampleAt 0 frameW (clampQ frameW.rows yq) (clampQ frameW.cols xq))) :=
  ⟨⟨by decide, by decide, by decide⟩,
   C2_main frameW (newGridX frameW 4 2) (newGridY frameW 4 2)
     (constArr 3 3 0) (constArr 3 3 0) 0 1 (by decide) (by decide) (by decide)⟩

/-! ## Claim C3 -/

/-- A 2 by 2 frame of constant intensity one half. -/
def c3frame : Arr ℚ := constArr 2 2 (1/2)

/-- A 2 by 2 coarse grid with centers 2 and 4 (natural coordinates). -/
def c3x : Arr ℕ := ⟨2, 2, fun _ c => 2 + 2 * c⟩

/-- Its y counterpart. -/
def c3y : Arr ℕ := ⟨2, 2, fun r _ => 2 + 2 * r⟩

/-- The same grid as rational meshgrids, as the GPU deformer receives. -/
def c3xQ : Arr ℚ := ⟨2, 2, fun _ c => 2 + 2 * (c : ℚ)⟩

/-- Its y counterpart. -/
def c3yQ : Arr ℚ := ⟨2, 2, fun r _ => 2 + 2 * (r : ℚ)⟩

/-- The zero displacement field on that grid. -/
def c3zero : Arr ℚ := constArr 2 2 0

/-- Claim C3: the CPU full-frame deformer and the GPU tiled deformer are
not observationally identical.  On a constant frame of intensity one half
with a zero displacement field and resampling order 1, the CPU deformer
returns the frame value one half, while the GPU deformer stores the warped
value into its `cp.uint8` output array and returns 0. -/
theorem C3_bug :
    (deform_windows c3frame c3x c3y c3zero c3zero 1 1).data 0 0 = 1/2 ∧
    (gpuDeformWindows c3frame c3xQ c3yQ c3zero c3zero 4 2 1 1).data 0 0 = 0 ∧
    ¬ (((gpuDeformWindows c3frame c3xQ c3yQ c3zero c3zero 4 2 1 1).data 0 0 : ℤ) : ℚ) =
        (deform_windows c3frame c3x c3y c3zero c3zero 1 1).data 0 0 := by
  have hz : ∀ i j, c3zero.data i j = 0 := fun i j => rfl
  have hnz : ∀ i j, (negArr c3zero).data i j = 0 := by
    intro i j
    show -(c3zero.data i j) = 0
    rw [hz, neg_zero]
  have hsamp : ∀ yq xq : ℚ, yq = 0 → xq = 0 → sampleAt 1 c3frame yq xq = 1/2 := by
    intro yq xq hy hx
    subst hy
    subst hx
    unfold sampleAt sample1
    norm_num [getClamped, clampIdx, mix, c3frame, constArr]
  have h1 : (deform_windows c3frame c3x c3y c3zero c3zero 1 1).data 0 0 = 1/2 := by
    show sampleAt 1 c3frame
      (((0:ℕ):ℚ) - (create_deformation_field c3frame c3x c3y c3zero c3zero 1).2.data 0 0)
      (((0:ℕ):ℚ) + (create_deformation_field c3frame c3x c3y c3zero c3zero 1).1.data 0 0) = 1/2
    have hvt : (create_deformation_field c3frame c3x c3y c3zero c3zero 1).2.data 0 0 = 0 :=
      rbsEval_zero c3zero hz _ _ _ _
    have hut : (create_deformation_field c3frame c3x c3y c3zero c3zero 1).1.data 0 0 = 0 :=
      rbsEval_zero c3zero hz _ _ _ _
    rw [hvt, hut]
    exact hsamp _ _ (by norm_num) (by norm_num)
  have h2 : (gpuDeformWindows c3frame c3xQ c3yQ c3zero c3zero 4 2 1 1).data 0 0 = 0 := by
    show castUint8 (sampleAt 1 c3frame
      (((0:ℕ):ℚ) - sampleAtC0 1 (negArr c3zero)
        ((((0:ℕ):ℚ) - c3yQ.data 0 0) / ((4:ℚ) - (2:ℚ)))
        ((((0:ℕ):ℚ) - c3xQ.data 0 0) / ((4:ℚ) - (2:ℚ))))
      (((0:ℕ):ℚ) + sampleAtC0 1 c3zero
        ((((0:ℕ):ℚ) - c3yQ.data 0 0) / ((4:ℚ) - (2:ℚ)))
        ((((0:ℕ):ℚ) - c3xQ.data 0 0) / ((4:ℚ) - (2:ℚ))))) = 0
    have hvt : ∀ yq xq : ℚ, sampleAtC0 1 (negArr c3zero) yq xq = 0 := by
      intro yq xq
      unfold sampleAtC0
      rw [if_neg (by norm_num)]
      exact sample1c_zero _ hnz _ _
    have hut : ∀ yq xq : ℚ, sampleAtC0 1 c3zero yq xq = 0 := by
      intro yq xq
      unfold sampleAtC0
      rw [if_neg (by norm_num)]
      exact sample1c_zero _ hz _ _
    rw [hvt, hut, hsamp _ _ (by norm_num) (by norm_num)]
    unfold castUint8 truncQ
    rw [if_pos (by norm_num : (0:ℚ) ≤ 1/2)]
    norm_num
  refine ⟨h1, h2, ?_⟩
  rw [h1, h2]
  norm_num

/-! ## Claim C10 -/

lemma cropWidth_of_lt (fa fb : Arr ℚ) (h : fa.cols < fb.cols) :
    cropWidth fa fb = ⟨fb.rows, fa.cols, fun r c => fb.data r (c + (fb.cols - fa.cols) / 2)⟩ := by
  unfold cropWidth
  rw [if_pos h]

lemma cropWidth_of_ge (fa fb : Arr ℚ) (h : ¬ fa.cols < fb.cols) :
    cropWidth fa fb = fb := by
  unfold cropWidth
  rw [if_neg h]

lemma cropHeight_of_lt (fa fb : Arr ℚ) (h : fa.rows < fb.rows) :
    cropHeight fa fb = ⟨fa.rows, fb.cols, fun r c => fb.data (r + (fb.rows - fa.rows) / 2) c⟩ := by
  unfold cropHeight
  rw [if_pos h]

lemma cropHeight_of_ge (fa fb : Arr ℚ) (h : ¬ fa.rows < fb.rows) :
    cropHeight fa fb = fb := by
  unfold cropHeight
  rw [if_neg h]

lemma conformB_rows (fa fb : Arr ℚ) : (conformB fa fb).rows = fa.rows := by
  unfold conformB
  have hle : (cropHeight fa (cropWidth fa fb)).rows ≤ fa.rows := by
    unfold cropHeight
    split_ifs with h
    · exact le_refl _
    · omega
  unfold padBoth
  split_ifs with h
  · dsimp only
    omega
  · push_neg at h
    omega

lemma conformB_cols (fa fb : Arr ℚ) : (conformB fa fb).cols = fa.cols := by
  unfold conformB
  have hw : (cropWidth fa fb).cols ≤ fa.cols := by
    unfold cropWidth
    split_ifs with h
    · exact le_refl _
    · omega
  have hle : (cropHeight fa (cropWidth fa fb)).cols ≤ fa.cols := by
    unfold cropHeight
    split_ifs with h
    · exact hw
    · exact hw
  unfold padBoth
  split_ifs with h
  · dsimp only
    omega
  · push_neg at h
    omega

lemma dimMap_crop {na nb : ℕ} (h : na < nb) (i : ℕ) :
    dimMap na nb i = some (i + (nb - na) / 2) := by
  unfold dimMap
  rw [if_pos h]

lemma dimMap_pad_in {na nb i : ℕ} (h : ¬ na < nb)
    (hin : (na - nb) / 2 ≤ i ∧ i < (na - nb) / 2 + nb) :
    dimMap na nb i = some (i - (na - nb) / 2) := by
  unfold dimMap
  rw [if_neg h, if_pos hin]

lemma dimMap_pad_out {na nb i : ℕ} (h : ¬ na < nb)
    (hout : ¬ ((na - nb) / 2 ≤ i ∧ i < (na - nb) / 2 + nb)) :
    dimMap na nb i = none := by
  unfold dimMap
  rw [if_neg h, if_neg hout]

/-- The conformed frame B reads its pixels through the central
crop-or-pad index mapping of each axis, with padded positions zero. -/
lemma conformB_data (fa fb : Arr ℚ) (r c : ℕ) (hr : r < fa.rows) (hc : c < fa.cols) :
    (conformB fa fb).data r c =
      (match dimMap fa.rows fb.rows r, dimMap fa.cols fb.cols c with
       | some r2, some c2 => fb.data r2 c2
       | _, _ => (0 : ℚ)) := by
  unfold conformB
  rcases Nat.lt_or_ge fa.rows fb.rows with hrow | hrow <;>
    rcases Nat.lt_or_ge fa.cols fb.cols with hcol | hcol
  · -- crop both dimensions
    rw [cropWidth_of_lt fa fb hcol, cropHeight_of_lt fa _ (by exact hrow)]
    rw [dimMap_crop hrow, dimMap_crop hcol]
    unfold padBoth
    rw [if_neg (by dsimp only; omega)]
  · -- crop rows, pad or keep columns
    rw [cropWidth_of_ge fa fb (by omega), cropHeight_of_lt fa fb hrow]
    rw [dimMap_crop hrow]
    rcases Nat.lt_or_ge fb.cols fa.cols with hcs | hcs
    · unfold padBoth
      rw [if_pos (by dsimp only; omega)]
      dsimp only
      by_cases hin : (fa.cols - fb.cols) / 2 ≤ c ∧ c < (fa.cols - fb.cols) / 2 + fb.cols
      · rw [dimMap_pad_in (by omega) (by omega)]
        rw [if_pos (by omega)]
        dsimp only
        congr 1
        omega
      · rw [dimMap_pad_out (by omega) (by omega)]
        rw [if_neg (by omega)]
    · have hceq : fb.cols = fa.cols := by omega
      unfold padBoth
      rw [if_neg (by dsimp only; omega)]
      rw [dimMap_pad_in (by omega) (by omega)]
      dsimp only
      congr 1
      omega
  · -- pad or keep rows, crop columns
    rw [cropWidth_of_lt fa fb hcol, cropHeight_of_ge fa _ (by dsimp only; omega)]
    rw [dimMap_crop hcol]
    rcases Nat.lt_or_ge fb.rows fa.rows with hrs | hrs
    · unfold padBoth
      rw [if_pos (by dsimp only; omega)]
      dsimp only
      by_cases hin : (fa.rows - fb.rows) / 2 ≤ r ∧ r < (fa.rows - fb.rows) / 2 + fb.rows
      · rw [dimMap_pad_in (by omega) (by omega)]
        rw [if_pos (by omega)]
        dsimp only
        congr 1
        omega
      · rw [dimMap_pad_out (by omega) (by omega)]
        rw [if_neg (by omega)]
    · have hreq : fb.rows = fa.rows := by omega
      unfold padBoth
      rw [if_neg (by dsimp only; omega)]
      rw [dimMap_pad_in (by omega) (by omega)]
      dsimp only
      congr 1
      omega
  · -- pad or keep both dimensions
    rw [cropWidth_of_ge fa fb (by omega), cropHeight_of_ge fa fb (by omega)]
    by_cases hpad : fb.rows < fa.rows ∨ fb.cols < fa.cols
    · unfold padBoth
      rw [if_pos hpad]
      dsimp only
      by_cases hrin : (fa.rows - fb.rows) / 2 ≤ r ∧ r < (fa.rows - fb.rows) / 2 + fb.rows
      · by_cases hcin : (fa.cols - fb.cols) / 2 ≤ c ∧ c < (fa.cols - fb.cols) / 2 + fb.cols
        · rw [dimMap_pad_in (by omega) (by omega), dimMap_pad_in (by omega) (by omega)]
          rw [if_pos (by omega)]
        · rw [dimMap_pad_in (by omega) (by omega), dimMap_pad_out (by omega) (by omega)]
          rw [if_neg (by omega)]
      · rw [dimMap_pad_out (by omega) (by omega)]
        rw [if_neg (by omega)]
    · unfold padBoth
      rw [if_neg hpad]
      push_neg at hpad
      rw [dimMap_pad_in (by omega) (by omega), dimMap_pad_in (by omega) (by omega)]
      have h1 : r - (fa.rows - fb.rows) / 2 = r := by omega
      have h2 : c - (fa.cols - fb.cols) / 2 = c := by omega
      rw [h1, h2]

/-- Claim C10: `prepare_images` conforms frame B to the shape of frame A by
centrally cropping every larger dimension and centrally zero-padding every
smaller one, so the two frames it returns always have identical shape and
the `ValueError("Images are different sizes.")` branch is unreachable. -/
theorem C10_main (fa fb : Arr ℚ) (roi : Option (ℕ × ℕ × ℕ × ℕ)) :
    (prepare_images fa fb roi).toOption.isSome = true ∧
    (∀ p, prepare_images fa fb roi = Except.ok p →
      p.1.rows = p.2.rows ∧ p.1.cols = p.2.cols ∧
      (roi = none → ∀ r, r < fa.rows → ∀ c, c < fa.cols →
        p.2.data r c =
          (match dimMap fa.rows fb.rows r, dimMap fa.cols fb.cols c with
           | some r2, some c2 => fb.data r2 c2
           | _, _ => (0 : ℚ)))) := by
  have hsh : ¬ ((conformB fa fb).rows ≠ fa.rows ∨ (conformB fa fb).cols ≠ fa.cols) := by
    rw [conformB_rows, conformB_cols]
    simp
  unfold prepare_images
  rw [if_neg hsh]
  cases roi with
  | none =>
    refine ⟨rfl, ?_⟩
    intro p hp
    cases hp
    refine ⟨?_, ?_, ?_⟩
    · exact (conformB_rows fa fb).symm
    · exact (conformB_cols fa fb).symm
    · intro _ r hr c hc
      exact conformB_data fa fb r c hr hc
  | some t =>
    obtain ⟨r0, r1, c0, c1⟩ := t
    refine ⟨rfl, ?_⟩
    intro p hp
    cases hp
    refine ⟨?_, ?_, ?_⟩
    · show min r1 fa.rows - r0 = min r1 (conformB fa fb).rows - r0
      rw [conformB_rows]
    · show min c1 fa.cols - c0 = min c1 (conformB fa fb).cols - c0
      rw [conformB_cols]
    · intro h
      cases h

/-- Witness for C10: a 3 by 5 frame A and a 6 by 2 frame B (so the height
is cropped and the width padded), no region of interest. -/
theorem C10_witness :
    prepare_images (constArr 3 5 1) (constArr 6 2 2) none =
      Except.ok (constArr 3 5 1, conformB (constArr 3 5 1) (constArr 6 2 2)) ∧
    (∀ p, prepare_images (constArr 3 5 1) (constArr 6 2 2) none = Except.ok p →
      p.1.rows = p.2.rows ∧ p.1.cols = p.2.cols ∧
      (none = (none : Option (ℕ × ℕ × ℕ × ℕ)) →
        ∀ r, r < (constArr 3 5 (1:ℚ)).rows → ∀ c, c < (constArr 3 5 (1:ℚ)).cols →
        p.2.data r c =
          (match dimMap (constArr 3 5 (1:ℚ)).rows (constArr 6 2 (2:ℚ)).rows r,
                 dimMap (constArr 3 5 (1:ℚ)).cols (constArr 6 2 (2:ℚ)).cols c with
           | some r2, some c2 => (constArr 6 2 (2:ℚ)).data r2 c2
           | _, _ => (0 : ℚ)))) :=
  ⟨rfl, (C10_main (constArr 3 5 1) (constArr 6 2 2) none).2⟩

/-! ## Claim C1 -/

/-- Claim C1 (amended): on every multipass iteration the field that
`multipass_img_deform` returns equals the residual correlation of frame A
against the deformed frame B plus the previous field resampled onto the
new grid, at every cell the validation left unflagged; on the final
iteration, where outlier repair is skipped, it does so at every cell.  On
intermediate iterations the flagged cells carry the repair output instead.
The same holds for the GPU variant, whose resampled field lives on the
padded grid and is cropped for accumulation. -/
theorem C1_main (a : PassArgs)
    (hrep : ∀ u v f, ∀ r c : ℕ, f.data r c = false →
      (a.Co.replace u v f).1.data r c = u.data r c ∧
      (a.Co.replace u v f).2.data r c = v.data r c)
    (hAll : allTrueB (cpuFlags a) = false) (r c : ℕ)
    (hcell : a.i + 1 = a.s.num_iterations ∨ (cpuFlags a).data r c = false) :
    ((multipass_img_deform a).toOption.map (fun pr => pr.u.data r c) =
      some ((cpuCorrRes a).1.data r c + (cpuUpre a).data r c) ∧
     (multipass_img_deform a).toOption.map (fun pr => pr.v.data r c) =
      some ((cpuCorrRes a).2.1.data r c + (cpuVpre a).data r c)) ∧
    (allTrueB (gpuFlags a) = false →
      (a.i + 1 = a.s.num_iterations ∨ (gpuFlags a).data r c = false) →
      (gpu_multipass_img_deform a).toOption.map (fun pr => pr.u.data r c) =
        some ((gpuCorrRes a).1.data r c +
          (gpuUpre a).data (r + gpuAddLo (passWS a) (passOV a))
            (c + gpuAddLo (passWS a) (passOV a))) ∧
      (gpu_multipass_img_deform a).toOption.map (fun pr => pr.v.data r c) =
        some ((gpuCorrRes a).2.1.data r c +
          (gpuVpre a).data (r + gpuAddLo (passWS a) (passOV a))
            (c + gpuAddLo (passWS a) (passOV a)))) := by
  constructor
  · unfold multipass_img_deform
    rw [hAll]
    simp only [Bool.false_eq_true, if_false]
    by_cases hl : a.i + 1 = a.s.num_iterations
    · rw [if_neg (not_not_intro hl)]
      exact ⟨rfl, rfl⟩
    · rw [if_pos hl]
      have hf : (cpuFlags a).data r c = false := hcell.resolve_left hl
      obtain ⟨h1, h2⟩ := hrep (cpuAccumU a) (cpuAccumV a) (cpuFlags a) r c hf
      constructor
      · show some ((a.Co.replace (cpuAccumU a) (cpuAccumV a) (cpuFlags a)).1.data r c) = _
        rw [h1]
        rfl
      · show some ((a.Co.replace (cpuAccumU a) (cpuAccumV a) (cpuFlags a)).2.data r c) = _
        rw [h2]
        rfl
  · intro hAllG hcellG
    unfold gpu_multipass_img_deform
    rw [hAllG]
    simp only [Bool.false_eq_true, if_false]
    by_cases hl : a.i + 1 = a.s.num_iterations
    · rw [if_neg (not_not_intro hl)]
      exact ⟨rfl, rfl⟩
    · rw [if_pos hl]
      have hf : (gpuFlags a).data r c = false := hcellG.resolve_left hl
      obtain ⟨h1, h2⟩ := hrep (gpuAccumU a) (gpuAccumV a) (gpuFlags a) r c hf
      constructor
      · show some ((a.Co.replace (gpuAccumU a) (gpuAccumV a) (gpuFlags a)).1.data r c) = _
        rw [h1]
        rfl
      · show some ((a.Co.replace (gpuAccumU a) (gpuAccumV a) (gpuFlags a)).2.data r c) = _
        rw [h2]
        rfl

/-- A validation collaborator flagging exactly the cell `(0, 0)`. -/
def validateCell00 : Arr ℚ → Arr ℚ → Arr ℚ → Arr Bool :=
  fun u _ _ => ⟨u.rows, u.cols, fun r c => decide (r = 0 ∧ c = 0)⟩

/-- An outlier-repair collaborator that fills the whole field with 9. -/
def replaceNine : Arr ℚ → Arr ℚ → Arr Bool → Arr ℚ × Arr ℚ :=
  fun _ _ _ => (constArr 3 3 9, constArr 3 3 9)

/-- A collaborator bundle whose validation flags cell `(0, 0)` and whose
repair overwrites the field with 9. -/
def c1Co : Collab := ⟨corrConst5, validateCell00, replaceNine, smoothId⟩

/-- Baseline settings with three iterations. -/
def s3 : PIVSettings :=
  ⟨fun _ => 4, fun _ => 2, 3, 1, false, false, false, none⟩

/-- Arguments for an intermediate pass (iteration 1 of 3) on the constant
frame with a zero previous field. -/
def c1args : PassArgs :=
  ⟨c1Co, frameW, frameW, 1, newGridX frameW 4 2, newGridY frameW 4 2,
   constArr 3 3 0, constArr 3 3 0, falseArr 3 3, s3⟩

/-- Counterexample to C1 as stated: on an intermediate pass whose
validation flags cell `(0, 0)`, the returned displacement there is the
repair output 9, not the residual-plus-resampled value 5. -/
theorem C1_cex :
    (multipass_img_deform c1args).toOption.map (fun pr => pr.u.data 0 0) = some 9 ∧
    (cpuCorrRes c1args).1.data 0 0 + (cpuUpre c1args).data 0 0 = 5 ∧
    ((9 : ℚ) ≠ 5) := by
  refine ⟨by decide, ?_, by decide⟩
  have h0 : (cpuUpre c1args).data 0 0 = 0 := by
    apply rbsEval_zero
    intro i j
    simp [c1args, fillZero, falseArr, constArr]
  rw [h0, add_zero]
  rfl

/-- Arguments for a final pass (iteration 1 of 2) with benign
collaborators. -/
def c1wargs : PassArgs :=
  ⟨CoW, frameW, frameW, 1, newGridX frameW 4 2, newGridY frameW 4 2,
   constArr 3 3 0, constArr 3 3 0, falseArr 3 3, sW⟩

/-- Witness for C1 at a concrete final pass. -/
theorem C1_witness :
    ((∀ u v f, ∀ r c : ℕ, f.data r c = false →
       (c1wargs.Co.replace u v f).1.data r c = u.data r c ∧
       (c1wargs.Co.replace u v f).2.data r c = v.data r c) ∧
     allTrueB (cpuFlags c1wargs) = false ∧
     (c1wargs.i + 1 = c1wargs.s.num_iterations ∨ (cpuFlags c1wargs).data 0 0 = false)) ∧
    (((multipass_img_deform c1wargs).toOption.map (fun pr => pr.u.data 0 0) =
       some ((cpuCorrRes c1wargs).1.data 0 0 + (cpuUpre c1wargs).data 0 0) ∧
      (multipass_img_deform c1wargs).toOption.map (fun pr => pr.v.data 0 0) =
       some ((cpuCorrRes c1wargs).2.1.data 0 0 + (cpuVpre c1wargs).data 0 0)) ∧
     (allTrueB (gpuFlags c1wargs) = false →
      (c1wargs.i + 1 = c1wargs.s.num_iterations ∨ (gpuFlags c1wargs).data 0 0 = false) →
      (gpu_multipass_img_deform c1wargs).toOption.map (fun pr => pr.u.data 0 0) =
        some ((gpuCorrRes c1wargs).1.data 0 0 +
          (gpuUpre c1wargs).data (0 + gpuAddLo (passWS c1wargs) (passOV c1wargs))
            (0 + gpuAddLo (passWS c1wargs) (passOV c1wargs))) ∧
      (gpu_multipass_img_deform c1wargs).toOption.map (fun pr => pr.v.data 0 0) =
        some ((gpuCorrRes c1wargs).2.1.data 0 0 +
          (gpuVpre c1wargs).data (0 + gpuAddLo (passWS c1wargs) (passOV c1wargs))
            (0 + gpuAddLo (passWS c1wargs) (passOV c1wargs))))) :=
  ⟨⟨fun u v f r c _ => ⟨rfl, rfl⟩, by decide, Or.inl (by decide)⟩,
   C1_main c1wargs (fun u v f r c _ => ⟨rfl, rfl⟩) (by decide) 0 0 (Or.inl (by decide))⟩

/-! ## Claim C4 -/

/-- Claim C4 (amended): outlier repair runs on every intermediate multipass
iteration and is skipped on the final one, which returns the raw
accumulated values together with the raw validation flags; except that
when `num_iterations` is 1 and `replace_vectors` is enabled, the first
stage does repair the single (hence final) pass. -/
theorem C4_main (a : PassArgs) (Co : Collab) (fa fb : Arr ℚ) (s : PIVSettings)
    (hAll : allTrueB (cpuFlags a) = false) :
    ((multipass_img_deform a).toOption.map (fun pr => pr.flags) = some (cpuFlags a)) ∧
    (a.i + 1 = a.s.num_iterations →
      (multipass_img_deform a).toOption.map (fun pr => (pr.u, pr.v)) =
        some (cpuAccumU a, cpuAccumV a)) ∧
    (a.i + 1 ≠ a.s.num_iterations →
      (multipass_img_deform a).toOption.map (fun pr => (pr.u, pr.v)) =
        some (a.Co.replace (cpuAccumU a) (cpuAccumV a) (cpuFlags a))) ∧
    (((s.num_iterations = 1 ∧ s.replace_vectors = true) ∨ 1 < s.num_iterations) →
      ((firstStage Co fa fb s).u, (firstStage Co fa fb s).v) =
        Co.replace (fsU Co fa fb s) (fsV Co fa fb s) (fsFlags Co fa fb s)) ∧
    (¬ ((s.num_iterations = 1 ∧ s.replace_vectors = true) ∨ 1 < s.num_iterations) →
      (firstStage Co fa fb s).u = fsU Co fa fb s ∧
      (firstStage Co fa fb s).v = fsV Co fa fb s) := by
  refine ⟨?_, ?_, ?_, ?_, ?_⟩
  · unfold multipass_img_deform
    rw [hAll]
    simp only [Bool.false_eq_true, if_false]
    by_cases hl : a.i + 1 = a.s.num_iterations
    · rw [if_neg (not_not_intro hl)]
      rfl
    · rw [if_pos hl]
      rfl
  · intro hl
    unfold multipass_img_deform
    rw [hAll]
    simp only [Bool.false_eq_true, if_false]
    rw [if_neg (not_not_intro hl)]
    rfl
  · intro hl
    unfold multipass_img_deform
    rw [hAll]
    simp only [Bool.false_eq_true, if_false]
    rw [if_pos hl]
    rfl
  · intro hcond
    unfold firstStage
    dsimp only
    rw [if_pos hcond]
  · intro hcond
    unfold firstStage
    dsimp only
    rw [if_neg hcond]
    exact ⟨rfl, rfl⟩

/-- An outlier-repair collaborator that fills the whole field with 9
(3 by 3 shape, matching the fixture grid). -/
def replaceNine4 : Arr ℚ → Arr ℚ → Arr Bool → Arr ℚ × Arr ℚ :=
  fun _ _ _ => (constArr 3 3 9, constArr 3 3 9)

/-- A collaborator bundle whose repair overwrites the field with 9. -/
def c4Co : Collab := ⟨corrConst5, validateNone, replaceNine4, smoothId⟩

/-- Single-iteration settings with `replace_vectors` enabled. -/
def s41 : PIVSettings :=
  ⟨fun _ => 4, fun _ => 2, 1, 1, false, false, true, none⟩

/-- Counterexample to C4 as stated: with `num_iterations = 1` and
`replace_vectors` enabled, the repair collaborator does run on the single
(final) pass: the first-stage output at cell `(0, 0)` is the repair value
9, not the raw first-pass value 5. -/
theorem C4_cex :
    s41.num_iterations = 1 ∧ s41.replace_vectors = true ∧
    (firstStage c4Co frameW frameW s41).u.data 0 0 = 9 ∧
    (first_pass c4Co frameW frameW s41).u.data 0 0 = 5 ∧ ((9 : ℚ) ≠ 5) := by
  refine ⟨rfl, rfl, by decide, rfl, by decide⟩

/-- Witness for C4 at a concrete final pass and first stage. -/
theorem C4_witness :
    allTrueB (cpuFlags c1wargs) = false ∧
    (((multipass_img_deform c1wargs).toOption.map (fun pr => pr.flags) =
        some (cpuFlags c1wargs)) ∧
     (c1wargs.i + 1 = c1wargs.s.num_iterations →
       (multipass_img_deform c1wargs).toOption.map (fun pr => (pr.u, pr.v)) =
         some (cpuAccumU c1wargs, cpuAccumV c1wargs)) ∧
     (c1wargs.i + 1 ≠ c1wargs.s.num_iterations →
       (multipass_img_deform c1wargs).toOption.map (fun pr => (pr.u, pr.v)) =
         some (c1wargs.Co.replace (cpuAccumU c1wargs) (cpuAccumV c1wargs) (cpuFlags c1wargs))) ∧
     (((sW.num_iterations = 1 ∧ sW.replace_vectors = true) ∨ 1 < sW.num_iterations) →
       ((firstStage CoW frameW frameW sW).u, (firstStage CoW frameW frameW sW).v) =
         CoW.replace (fsU CoW frameW frameW sW) (fsV CoW frameW frameW sW)
           (fsFlags CoW frameW frameW sW)) ∧
     (¬ ((sW.num_iterations = 1 ∧ sW.replace_vectors = true) ∨ 1 < sW.num_iterations) →
       (firstStage CoW frameW frameW sW).u = fsU CoW frameW frameW sW ∧
       (firstStage CoW frameW frameW sW).v = fsV CoW frameW frameW sW)) :=
  ⟨by decide, C4_main c1wargs CoW frameW frameW sW (by decide)⟩

/-! ## Claim C5 -/

/-- Claim C5 (amended): on multipass iterations (the second pass onward),
an all-invalid validation makes `multipass_img_deform` raise immediately,
in both engines; the raised error is the fixed message
`Something happened in the validation`, identical for every pass index, so
it does not carry the offending pass index; and the first pass performs no
such check at all. -/
theorem C5_main (a : PassArgs) (hAll : allTrueB (cpuFlags a) = true)
    (hAllG : allTrueB (gpuFlags a) = true) :
    multipass_img_deform a = Except.error "Something happened in the validation" ∧
    gpu_multipass_img_deform a = Except.error "Something happened in the validation" := by
  constructor
  · unfold multipass_img_deform
    rw [hAll]
    rfl
  · unfold gpu_multipass_img_deform
    rw [hAllG]
    rfl

/-- A validation collaborator that flags everything exactly when the field
has the first-pass shape 3 (and accepts everything on the 7-wide second
grid). -/
def validateShape3 : Arr ℚ → Arr ℚ → Arr ℚ → Arr Bool :=
  fun u _ _ => constArr u.rows u.cols (decide (u.rows = 3))

/-- Collaborators for the C5 counterexample. -/
def c5Co : Collab := ⟨corrConst5, validateShape3, replaceId, smoothId⟩

/-- Two-pass settings whose second pass uses window size 2 and overlap 1,
with first-pass validation enabled. -/
def s5 : PIVSettings :=
  ⟨fun i => if i = 0 then 4 else 2, fun i => if i = 0 then 2 else 1, 2, 1,
   false, true, false, none⟩

/-- Counterexample to C5 as stated: the first-pass validation flags every
grid cell invalid, yet the engine does not raise; it repairs, continues to
the second pass and completes the run. -/
theorem C5_cex :
    allTrueB (fsFlags c5Co frameW frameW s5) = true ∧
    (multipass c5Co frameW frameW none s5).toOption.isSome = true := by
  exact ⟨by decide, by decide⟩

/-- A validation collaborator that flags everything. -/
def validateAll : Arr ℚ → Arr ℚ → Arr ℚ → Arr Bool :=
  fun u _ _ => constArr u.rows u.cols true

/-- Collaborators for the C5 witness. -/
def c5wCo : Collab := ⟨corrConst5, validateAll, replaceId, smoothId⟩

/-- A pass whose validation flags everything. -/
def c5wargs : PassArgs :=
  ⟨c5wCo, frameW, frameW, 1, newGridX frameW 4 2, newGridY frameW 4 2,
   constArr 3 3 0, constArr 3 3 0, falseArr 3 3, sW⟩

/-- Witness for C5 at a concrete all-invalid pass. -/
theorem C5_witness :
    allTrueB (cpuFlags c5wargs) = true ∧ allTrueB (gpuFlags c5wargs) = true ∧
    (multipass_img_deform c5wargs = Except.error "Something happened in the validation" ∧
     gpu_multipass_img_deform c5wargs = Except.error "Something happened in the validation") :=
  ⟨by decide, by decide, C5_main c5wargs (by decide) (by decide)⟩

/-! ## Claim C7 -/

/-- Claim C7 (amended): in the multipass loop, smoothing is applied to a
pass output exactly when smoothing is enabled and another iteration
follows, never to the final pass; but after the first pass, smoothing is
applied whenever it is enabled, with no guard, so with
`num_iterations = 1` the single (hence final) pass output is smoothed. -/
theorem C7_main (Co : Collab) (fa fb : Arr ℚ) (s : PIVSettings) (i : ℕ)
    (st : StageState) :
    (i + 1 = s.num_iterations →
      multipassStep Co fa fb s i st =
        (multipass_img_deform ⟨Co, fa, fb, i, st.x, st.y, st.u, st.v, st.uMask, s⟩).map
          (fun pr => ⟨pr.x, pr.y, pr.u, pr.v, pr.grid_mask, pr.flags⟩)) ∧
    (s.smoothn = true → i + 1 ≠ s.num_iterations →
      multipassStep Co fa fb s i st =
        (multipass_img_deform ⟨Co, fa, fb, i, st.x, st.y, st.u, st.v, st.uMask, s⟩).map
          (fun pr => ⟨pr.x, pr.y, Co.smooth pr.u, Co.smooth pr.v, pr.grid_mask, pr.flags⟩)) ∧
    (s.smoothn = true → s.num_iterations = 1 → s.replace_vectors = false →
      (firstStage Co fa fb s).u = Co.smooth (first_pass Co fa fb s).u ∧
      (firstStage Co fa fb s).v = Co.smooth (first_pass Co fa fb s).v) := by
  refine ⟨?_, ?_, ?_⟩
  · intro h
    unfold multipassStep
    cases hmp : multipass_img_deform ⟨Co, fa, fb, i, st.x, st.y, st.u, st.v, st.uMask, s⟩ with
    | error e => rfl
    | ok pr =>
      dsimp only [Except.map]
      rw [if_neg (fun hcon : s.smoothn = true ∧ i + 1 ≠ s.num_iterations => hcon.2 h),
          if_neg (fun hcon : s.smoothn = true ∧ i + 1 ≠ s.num_iterations => hcon.2 h)]
  · intro hsm hne
    unfold multipassStep
    cases hmp : multipass_img_deform ⟨Co, fa, fb, i, st.x, st.y, st.u, st.v, st.uMask, s⟩ with
    | error e => rfl
    | ok pr =>
      dsimp only [Except.map]
      rw [if_pos ⟨hsm, hne⟩, if_pos ⟨hsm, hne⟩]
  · intro hsm h1 hrv
    have hcond : ¬ ((s.num_iterations = 1 ∧ s.replace_vectors = true) ∨ 1 < s.num_iterations) := by
      rintro (⟨_, hc⟩ | hc)
      · rw [hrv] at hc
        exact Bool.false_ne_true hc
      · omega
    unfold firstStage
    dsimp only
    rw [if_neg hcond]
    unfold fsU fsV
    rw [if_pos hsm, if_pos hsm]
    exact ⟨rfl, rfl⟩

/-- A collaborator bundle whose smoothing fills the field with 7. -/
def c7Co : Collab := ⟨corrConst5, validateNone, replaceId,
  fun a => constArr a.rows a.cols 7⟩

/-- Single-iteration settings with smoothing enabled. -/
def s71 : PIVSettings :=
  ⟨fun _ => 4, fun _ => 2, 1, 1, true, false, false, none⟩

/-- Counterexample to C7 as stated: with `num_iterations = 1` and
smoothing enabled, the output of the single (hence final) pass is the
smoothed field 7, not the raw first-pass value 5. -/
theorem C7_cex :
    s71.smoothn = true ∧ s71.num_iterations = 1 ∧
    (firstStage c7Co frameW frameW s71).u.data 0 0 = 7 ∧
    (first_pass c7Co frameW frameW s71).u.data 0 0 = 5 ∧ ((7 : ℚ) ≠ 5) := by
  refine ⟨rfl, rfl, by decide, rfl, by decide⟩

/-- Witness for C7: the final-pass step applies no smoothing at a concrete
state. -/
theorem C7_witness :
    (1 + 1 = sW.num_iterations) ∧
    multipassStep CoW frameW frameW sW 1 (firstStage CoW frameW frameW sW) =
      (multipass_img_deform ⟨CoW, frameW, frameW, 1,
        (firstStage CoW frameW frameW sW).x, (firstStage CoW frameW frameW sW).y,
        (firstStage CoW frameW frameW sW).u, (firstStage CoW frameW frameW sW).v,
        (firstStage CoW frameW frameW sW).uMask, sW⟩).map
        (fun pr => ⟨pr.x, pr.y, pr.u, pr.v, pr.grid_mask, pr.flags⟩) :=
  ⟨by decide,
   (C7_main CoW frameW frameW sW 1 (firstStage CoW frameW frameW sW)).1 (by decide)⟩

/-! ## Claim C6 -/

/-- Claim C6: for every completed run, finalizing zero-fills the cells the
grid mask marks, reapplies the grid mask freshly sampled from the image
mask, and hands the persistence collaborator a field whose vertical axis
is flipped and whose two components are negated relative to the internal
field; the GPU engine applies the same flip and negation and hands over an
all-false grid mask. -/
theorem C6_main (Co : Collab) (fa fb : Arr ℚ) (m : Arr Bool) (s : PIVSettings)
    (h2 : 2 ≤ s.num_iterations) :
    (multipass Co fa fb (some m) s = (runState Co fa fb s).map (finalize (some m))) ∧
    (∀ st : StageState, ∀ r c : ℕ,
      (finalize (some m) st).u.data r c =
        -((fillZero st.u st.uMask).data (st.u.rows - 1 - r) c) ∧
      (finalize (some m) st).v.data r c =
        -((fillZero st.v st.uMask).data (st.v.rows - 1 - r) c) ∧
      (st.uMask.data r c = true → (fillZero st.u st.uMask).data r c = 0) ∧
      (finalize (some m) st).grid_mask.data r c = m.data (st.y.data r c) (st.x.data r c) ∧
      (finalize (some m) st).flags = st.flags) ∧
    (gpuMultipass Co fa fb s = (gpuRunState Co fa fb s).map gpuFinalize ∧
     ∀ st : StageState, ∀ r c : ℕ,
       (gpuFinalize st).u.data r c = -(st.u.data (st.u.rows - 1 - r) c) ∧
       (gpuFinalize st).v.data r c = -(st.v.data (st.v.rows - 1 - r) c) ∧
       (gpuFinalize st).grid_mask.data r c = false) := by
  refine ⟨?_, ?_, ?_, ?_⟩
  · unfold multipass
    cases hrs : runState Co fa fb s with
    | error e => rfl
    | ok st =>
      dsimp only [Except.map]
      rw [if_neg (by omega : ¬ s.num_iterations ≤ 1)]
  · intro st r c
    refine ⟨rfl, rfl, ?_, rfl, rfl⟩
    intro h
    show (if st.uMask.data r c = true then 0 else st.u.data r c) = 0
    rw [if_pos h]
  · unfold gpuMultipass
    cases hrs : gpuRunState Co fa fb s with
    | error e => rfl
    | ok st => rfl
  · intro st r c
    exact ⟨rfl, rfl, rfl⟩

/-- An all-true image mask on the 8 by 8 frame. -/
def mW : Arr Bool := constArr 8 8 true

/-- Witness for C6 at concrete collaborators, frames and mask. -/
theorem C6_witness :
    2 ≤ sW.num_iterations ∧
    ((multipass CoW frameW frameW (some mW) sW =
        (runState CoW frameW frameW sW).map (finalize (some mW))) ∧
     (∀ st : StageState, ∀ r c : ℕ,
       (finalize (some mW) st).u.data r c =
         -((fillZero st.u st.uMask).data (st.u.rows - 1 - r) c) ∧
       (finalize (some mW) st).v.data r c =
         -((fillZero st.v st.uMask).data (st.v.rows - 1 - r) c) ∧
       (st.uMask.data r c = true → (fillZero st.u st.uMask).data r c = 0) ∧
       (finalize (some mW) st).grid_mask.data r c = mW.data (st.y.data r c) (st.x.data r c) ∧
       (finalize (some mW) st).flags = st.flags) ∧
     (gpuMultipass CoW frameW frameW sW =
        (gpuRunState CoW frameW frameW sW).map gpuFinalize ∧
      ∀ st : StageState, ∀ r c : ℕ,
        (gpuFinalize st).u.data r c = -(st.u.data (st.u.rows - 1 - r) c) ∧
        (gpuFinalize st).v.data r c = -(st.v.data (st.v.rows - 1 - r) c) ∧
        (gpuFinalize st).grid_mask.data r c = false)) :=
  ⟨by decide, C6_main CoW frameW frameW mW sW (by decide)⟩

/-! ## Claim C8 -/

/-- Claim C8 (amended): in the CPU engine every completed run with an
image mask emits the final grid mask obtained by sampling the image mask
at the window-center coordinate arrays of the final grid, whatever the
correlation, validation, repair and smoothing collaborators did; the GPU
engine ignores the configured mask and always emits an all-false grid
mask. -/
theorem C8_main (Co : Collab) (fa fb : Arr ℚ) (m : Arr Bool) (s : PIVSettings)
    (out : PIVOutput) (hok : multipass Co fa fb (some m) s = Except.ok out) (r c : ℕ) :
    out.grid_mask.data r c = m.data (out.y.data r c) (out.x.data r c) ∧
    (∀ (Co2 : Collab) (fa2 fb2 : Arr ℚ) (s2 : PIVSettings) (out2 : PIVOutput),
      gpuMultipass Co2 fa2 fb2 s2 = Except.ok out2 →
      out2.grid_mask.data r c = false) := by
  constructor
  · unfold multipass at hok
    cases hrs : runState Co fa fb s with
    | error e =>
      rw [hrs] at hok
      cases hok
    | ok st =>
      rw [hrs] at hok
      dsimp only at hok
      by_cases h1 : s.num_iterations ≤ 1
      · rw [if_pos h1] at hok
        cases hok
      · rw [if_neg h1] at hok
        cases hok
        rfl
  · intro Co2 fa2 fb2 s2 out2 hok2
    unfold gpuMultipass at hok2
    cases hrs : gpuRunState Co2 fa2 fb2 s2 with
    | error e =>
      rw [hrs] at hok2
      cases hok2
    | ok st =>
      rw [hrs] at hok2
      cases hok2
      rfl

/-- Two-pass settings carrying the all-true static mask. -/
def s8 : PIVSettings :=
  ⟨fun _ => 4, fun _ => 2, 2, 1, false, false, false, some mW⟩

/-- The output of a concrete completed masked CPU run. -/
def c8out : PIVOutput :=
  (multipass CoW frameW frameW (some mW) s8).toOption.getD dummyOutput

/-- Witness for C8 at the concrete masked run. -/
theorem C8_witness :
    multipass CoW frameW frameW (some mW) s8 = Except.ok c8out ∧
    (c8out.grid_mask.data 0 0 = mW.data (c8out.y.data 0 0) (c8out.x.data 0 0) ∧
     (∀ (Co2 : Collab) (fa2 fb2 : Arr ℚ) (s2 : PIVSettings) (out2 : PIVOutput),
       gpuMultipass Co2 fa2 fb2 s2 = Except.ok out2 →
       out2.grid_mask.data 0 0 = false)) :=
  ⟨rfl, C8_main CoW frameW frameW mW s8 c8out rfl 0 0⟩

/-- Single-pass GPU settings carrying the all-true static mask. -/
def s8g : PIVSettings :=
  ⟨fun _ => 4, fun _ => 2, 1, 1, false, false, false, some mW⟩

/-- Counterexample to C8 as stated: a GPU run configured with an image
mask whose window center `(2, 2)` is masked still emits `false` at that
grid cell of the final grid mask. -/
theorem C8_cex :
    s8g.static_mask = some mW ∧
    mW.data (gridCenter 4 2 0) (gridCenter 4 2 0) = true ∧
    (gpuMultipass CoW frameW frameW s8g).toOption.map
      (fun o => o.grid_mask.data 0 0) = some false := by
  refine ⟨rfl, by decide, by decide⟩

/-! ## Claim C9 -/

/-- Claim C9 (amended): a pass whose validation is not entirely invalid
never fails, and the CPU engine returns the validation flags unchanged by
the repair step, so cells the repair kernel could not resolve remain
flagged; the GPU engine, however, overwrites the flags with zeros after
repair on intermediate passes, reporting every cell as valid whether or
not a repair happened. -/
theorem C9_main (a : PassArgs) (hAll : allTrueB (cpuFlags a) = false) (r c : ℕ) :
    ((multipass_img_deform a).toOption.isSome = true) ∧
    ((multipass_img_deform a).toOption.map (fun pr => pr.flags.data r c) =
      some ((cpuFlags a).data r c)) ∧
    (a.i + 1 ≠ a.s.num_iterations → allTrueB (gpuFlags a) = false →
      (gpu_multipass_img_deform a).toOption.map (fun pr => pr.flags.data r c) =
        some false) := by
  refine ⟨?_, ?_, ?_⟩
  · unfold multipass_img_deform
    rw [hAll]
    simp only [Bool.false_eq_true, if_false]
    by_cases hl : a.i + 1 = a.s.num_iterations
    · rw [if_neg (not_not_intro hl)]
      rfl
    · rw [if_pos hl]
      rfl
  · unfold multipass_img_deform
    rw [hAll]
    simp only [Bool.false_eq_true, if_false]
    by_cases hl : a.i + 1 = a.s.num_iterations
    · rw [if_neg (not_not_intro hl)]
      rfl
    · rw [if_pos hl]
      rfl
  · intro hne hAllG
    unfold gpu_multipass_img_deform
    rw [hAllG]
    simp only [Bool.false_eq_true, if_false]
    rw [if_pos hne]
    rfl

/-- Collaborators for the C9 counterexample: one flagged cell, identity
repair. -/
def c9Co : Collab := ⟨corrConst5, validateCell00, replaceId, smoothId⟩

/-- An intermediate GPU pass (iteration 1 of 3) with one flagged cell. -/
def c9args : PassArgs :=
  ⟨c9Co, frameW, frameW, 1, newGridX frameW 4 2, newGridY frameW 4 2,
   constArr 3 3 0, constArr 3 3 0, falseArr 3 3, s3⟩

/-- Counterexample to C9 as stated: validation flags cell `(0, 0)` and the
repair collaborator is the identity (no successful repair), yet the GPU
pass returns that cell as valid: its flags output is all false. -/
theorem C9_cex :
    (gpuFlags c9args).data 0 0 = true ∧
    (gpu_multipass_img_deform c9args).toOption.map
      (fun pr => pr.flags.data 0 0) = some false ∧
    (∀ u v f, c9args.Co.replace u v f = (u, v)) := by
  refine ⟨by decide, by decide, fun u v f => rfl⟩

/-- An intermediate pass with benign collaborators. -/
def c9wargs : PassArgs :=
  ⟨CoW, frameW, frameW, 1, newGridX frameW 4 2, newGridY frameW 4 2,
   constArr 3 3 0, constArr 3 3 0, falseArr 3 3, s3⟩

/-- Witness for C9 at a concrete intermediate pass. -/
theorem C9_witness :
    allTrueB (cpuFlags c9wargs) = false ∧
    (((multipass_img_deform c9wargs).toOption.isSome = true) ∧
     ((multipass_img_deform c9wargs).toOption.map (fun pr => pr.flags.data 0 0) =
       some ((cpuFlags c9wargs).data 0 0)) ∧
     (c9wargs.i + 1 ≠ c9wargs.s.num_iterations → allTrueB (gpuFlags c9wargs) = false →
       (gpu_multipass_img_deform c9wargs).toOption.map
         (fun pr => pr.flags.data 0 0) = some false)) :=
  ⟨by decide, C9_main c9wargs (by decide) 0 0⟩
